import Mathlib

/-!
Verification development for the welto point-of-sale backend: a shallow
embedding of the order/stock/payment consistency engine (the `order`,
`product` and `aprovision` Django apps) together with theorems checking
the behavioural properties stated in the specification.

Modelling conventions:
* Monetary `Decimal(…, decimal_places=2)` fields are exact fixed-point
  numbers; they are embedded as `Int` (think "amount in cents").
  No operation used here ever divides, so this is exact.
* `PositiveIntegerField` quantities are embedded as `Nat`.
* The relational database is a record of lists of rows; autoincrement
  primary keys are modelled as `Nat` ids, newly created rows receiving
  an id strictly greater than every existing id of their table.
* Business dates (`Order.date`, a `DateField`) are embedded as their
  `YYYYMMDD` string rendering, which is what the order-number generator
  consumes; date equality coincides with string equality.
* Display-only columns (colour tags, free-text descriptions, audit
  timestamps, `created_by`) are omitted: no operation modelled here
  reads them back.
* Python objects that are mutated in place and shared between a view and
  the signal receivers it triggers are modelled by threading the updated
  record value through the steps in the source order.
-/

/-- Stock-movement kinds, from `aprovision.models.TypeMouvement`. -/
inductive TypeMouvement where
  | ENTREE
  | SORTIE_VENTE
  | SORTIE_PERTE
  | AJUSTEMENT_PLUS
  | AJUSTEMENT_MOINS
deriving DecidableEq, Repr

/-- Row of `product.models.Product`. -/
structure Product where
  id : Nat
  title : String
  value : Int
  discount_value : Int
  final_value : Int
  qty : Nat
  prix_achat : Int
deriving DecidableEq, Repr

/-- Row of `order.models.Order` (the optional client link and the
`timestamp` audit column are omitted; `date` is the `YYYYMMDD` string). -/
structure OrderRow where
  id : Nat
  date : String
  title : String
  value : Int
  discount : Int
  final_value : Int
  is_paid : Bool
deriving DecidableEq, Repr

/-- Row of `order.models.OrderItem`. -/
structure OrderItemRow where
  id : Nat
  orderId : Nat
  productId : Nat
  qty : Nat
  price : Int
  discount_price : Int
  final_price : Int
  total_price : Int
deriving DecidableEq, Repr

/-- Row of `order.models.Payment` (date and `created_at` omitted). -/
structure PaymentRow where
  id : Nat
  orderId : Nat
  amount : Int
  method : String
  note : String
deriving DecidableEq, Repr

/-- Row of `aprovision.models.TypeDepense` (colour and description omitted). -/
structure TypeDepenseRow where
  id : Nat
  nom : String
deriving DecidableEq, Repr

/-- Row of `aprovision.models.Depense` (dates, supplier, notes omitted
except the fields the replenishment workflow writes). -/
structure DepenseRow where
  id : Nat
  typeDepenseId : Nat
  montant : Int
  fournisseur : String
  reference : String
deriving DecidableEq, Repr

/-- Row of `aprovision.models.MouvementStock` (description, actor and
timestamp omitted). -/
structure MouvementRow where
  produitId : Nat
  type_mouvement : TypeMouvement
  quantite : Int
  stock_avant : Nat
  stock_apres : Nat
  prix_achat_unitaire : Option Int
  cout_total : Option Int
  reference_commande : Option Nat
  reference_depense : Option Nat
deriving DecidableEq, Repr

/-- The relational store: one list of rows per table. -/
structure DB where
  products : List Product
  orders : List OrderRow
  orderItems : List OrderItemRow
  payments : List PaymentRow
  mouvements : List MouvementRow
  typeDepenses : List TypeDepenseRow
  depenses : List DepenseRow
deriving DecidableEq, Repr

/-- Wall-clock data consumed by `Order.generate_order_number`:
`timePart` is `now.strftime('%H%M')`, `micro` the first three digits of
`now.strftime('%f')`. -/
structure Now where
  timePart : String
  micro : String
deriving DecidableEq, Repr

/-! ## String helpers -/

/-- Boolean list-prefix test (used for the `title__startswith` filter). -/
def isPrefixList : List Char → List Char → Bool
  | [], _ => true
  | _ :: _, [] => false
  | a :: as, b :: bs => a == b && isPrefixList as bs

/-- Python's `not s or s.strip() == ''`: the string is empty or whitespace. -/
def strBlank (s : String) : Bool := s.data.all (fun c => c.isWhitespace)

/-- Decimal digit as a character. -/
def digitChar : Nat → Char
  | 0 => '0'
  | 1 => '1'
  | 2 => '2'
  | 3 => '3'
  | 4 => '4'
  | 5 => '5'
  | 6 => '6'
  | 7 => '7'
  | 8 => '8'
  | _ => '9'

/-- Decimal digits of `n`, most significant first (`fuel`-structured). -/
def digitsAux : Nat → Nat → List Char
  | 0, _ => []
  | fuel + 1, n => if n < 10 then [digitChar n] else digitsAux fuel (n / 10) ++ [digitChar (n % 10)]

/-- Decimal rendering of a natural number. -/
def natStr (n : Nat) : String := ⟨digitsAux (n + 1) n⟩

/-- Python's `f"{n:03d}"`: zero-pad to at least three digits. -/
def pad3 (n : Nat) : String :=
  if n < 10 then "00" ++ natStr n else if n < 100 then "0" ++ natStr n else natStr n

/-! ## Query helpers (the ORM aggregates the models use) -/

/-- `order.order_items.all()`. -/
def itemsOf (db : DB) (oid : Nat) : List OrderItemRow :=
  db.orderItems.filter (fun i => i.orderId == oid)

/-- `order.order_items.aggregate(Sum('total_price'))`. -/
def itemsSum (db : DB) (oid : Nat) : Int :=
  ((itemsOf db oid).map (fun i => i.total_price)).sum

/-- `order.payments.aggregate(Sum('amount')) or 0` (`Order.total_payments`). -/
def total_payments (db : DB) (o : OrderRow) : Int :=
  ((db.payments.filter (fun p => p.orderId == o.id)).map (fun p => p.amount)).sum

/-- `Order.remaining_amount`: `max(0, final_value - total_payments())`.
The order's monetary fields are read from the in-memory instance `o`. -/
def remaining_amount (db : DB) (o : OrderRow) : Int :=
  max 0 (o.final_value - total_payments db o)

/-- `Order.is_fully_paid`: `False` when nothing is billed, otherwise
`remaining_amount() <= 0`. -/
def is_fully_paid (db : DB) (o : OrderRow) : Bool :=
  if o.final_value ≤ 0 then false else remaining_amount db o ≤ 0

/-- Lookup of an order row by primary key. -/
def findOrder (db : DB) (oid : Nat) : Option OrderRow :=
  db.orders.find? (fun r => r.id == oid)

/-- Lookup of a product row by primary key. -/
def findProduct (db : DB) (pid : Nat) : Option Product :=
  db.products.find? (fun r => r.id == pid)

/-- Lookup of an order-item row by primary key. -/
def findItem (db : DB) (iid : Nat) : Option OrderItemRow :=
  db.orderItems.find? (fun r => r.id == iid)

/-- Fresh autoincrement id for the payments table. -/
def nextPaymentId (db : DB) : Nat :=
  (db.payments.foldr (fun p m => max p.id m) 0) + 1

/-- Fresh autoincrement id for the order-items table. -/
def nextItemId (db : DB) : Nat :=
  (db.orderItems.foldr (fun p m => max p.id m) 0) + 1

/-- Fresh autoincrement id for the expenses table. -/
def nextDepenseId (db : DB) : Nat :=
  (db.depenses.foldr (fun p m => max p.id m) 0) + 1

/-- Fresh autoincrement id for the expense-type table. -/
def nextTypeDepenseId (db : DB) : Nat :=
  (db.typeDepenses.foldr (fun p m => max p.id m) 0) + 1

/-- UPDATE of the order row with id `o.id` to the full record `o`
(a Django `save()` on an existing instance). -/
def writeOrder (db : DB) (o : OrderRow) : DB :=
  { db with orders := db.orders.map (fun r => if r.id == o.id then o else r) }

/-- UPDATE of the product row with id `p.id` to the record `p`. -/
def writeProduct (db : DB) (p : Product) : DB :=
  { db with products := db.products.map (fun r => if r.id == p.id then p else r) }

/-- UPDATE of the order-item row with id `it.id` to the record `it`. -/
def writeItem (db : DB) (it : OrderItemRow) : DB :=
  { db with orderItems := db.orderItems.map (fun r => if r.id == it.id then it else r) }

/-- `Order.objects.filter(id=oid).update(is_paid=b)`: updates only the
`is_paid` column of the matching row. -/
def writeIsPaid (db : DB) (oid : Nat) (b : Bool) : DB :=
  { db with orders := db.orders.map (fun r => if r.id == oid then { r with is_paid := b } else r) }

/-- Observation: quantity column of a product row. -/
def productQty (db : DB) (pid : Nat) : Option Nat :=
  (findProduct db pid).map (fun p => p.qty)

/-- Observation: `value` column of an order row. -/
def orderValue (db : DB) (oid : Nat) : Option Int :=
  (findOrder db oid).map (fun o => o.value)

/-- Observation: `final_value` column of an order row. -/
def orderFinalValue (db : DB) (oid : Nat) : Option Int :=
  (findOrder db oid).map (fun o => o.final_value)

/-- Observation: `is_paid` column of an order row. -/
def orderIsPaid (db : DB) (oid : Nat) : Option Bool :=
  (findOrder db oid).map (fun o => o.is_paid)

/-- Observation: remaining amount computed from the persisted order row. -/
def orderRemaining (db : DB) (oid : Nat) : Option Int :=
  (findOrder db oid).map (fun o => remaining_amount db o)

/-! ## Order numbering (`Order.generate_order_number`) -/

/-- One candidate title `CMD-<date>-<time>-<seq :03d>`. -/
def candidateTitle (datePart timePart : String) (seq : Nat) : String :=
  "CMD-" ++ datePart ++ "-" ++ timePart ++ "-" ++ pad3 seq

/-- The microsecond fallback title `CMD-<date>-<time>-<micro>`. -/
def fallbackTitle (datePart timePart micro : String) : String :=
  "CMD-" ++ datePart ++ "-" ++ timePart ++ "-" ++ micro

/-- `Order.objects.filter(title=t)` (excluding the saved instance's own
pk when present) `.exists()`, negated: the candidate title is unused. -/
def titleFree (db : DB) (excl : Option Nat) (t : String) : Bool :=
  !(db.orders.any (fun r =>
    r.title == t && (match excl with | some pk => r.id != pk | none => true)))

/-- The probing loop of `generate_order_number`, returning the chosen
title together with the number of existence probes performed.  `fuel`
counts the loop iterations the source can still perform before its
`sequence > 999` guard fires: iteration at `sequence = s` probes the
candidate, returns it when free, and otherwise moves to `s + 1` unless
`s + 1 > 999`, in which case the microsecond fallback is returned. -/
def probeAux (db : DB) (excl : Option Nat) (datePart timePart fallb : String) :
    Nat → Nat → String × Nat
  | 0, _ => (fallb, 0)
  | fuel + 1, s =>
    if titleFree db excl (candidateTitle datePart timePart s) then
      (candidateTitle datePart timePart s, 1)
    else
      let r := probeAux db excl datePart timePart fallb fuel (s + 1)
      (r.1, r.2 + 1)

/-- `Order.generate_order_number` (order/models.py lines 36-73): seed a
sequence number from the count of same-date orders whose title starts
with `CMD-<date>-`, then linearly probe; the second component is the
number of probes (instrumentation for the termination property). -/
def generate_order_number (db : DB) (o : OrderRow) (excl : Option Nat) (now : Now) :
    String × Nat :=
  let datePart := o.date
  let pfx := "CMD-" ++ datePart ++ "-"
  let seed := (db.orders.filter (fun r =>
    r.date == o.date && isPrefixList pfx.data r.title.data)).length
  let fallb := fallbackTitle datePart now.timePart now.micro
  let s0 := seed + 1
  probeAux db excl datePart now.timePart fallb (if 1000 ≤ s0 then 1 else 1000 - s0) s0

/-! ## Model save methods -/

/-- `Product.save`: recompute `final_value` from the promo price, then
persist the row. Returns the persisted record (the in-memory instance). -/
def Product.save (db : DB) (p : Product) : DB × Product :=
  let p1 := { p with final_value := if p.discount_value > 0 then p.discount_value else p.value }
  (writeProduct db p1, p1)

/-- `Order.save` (order/models.py lines 75-90): generate a title when the
current one is blank, persist the row, recompute `value`/`final_value`
from the order items, and persist again only when the order has items.
Returns the database together with the in-memory instance (whose
computed fields are set even when they were not persisted). -/
def Order.save (now : Now) (db : DB) (o : OrderRow) : DB × OrderRow :=
  let t := if strBlank o.title then (generate_order_number db o (some o.id) now).1 else o.title
  let o0 := { o with title := t }
  let db1 := writeOrder db o0
  let items := itemsOf db1 o0.id
  let v : Int := if items.isEmpty then 0 else itemsSum db1 o0.id
  let o2 := { o0 with value := v, final_value := v - o0.discount }
  if items.isEmpty then (db1, o2) else (writeOrder db1 o2, o2)

/-- `MouvementStock.save`: recompute `cout_total = |quantite| * prix`
when a (truthy) unit purchase price and a nonzero quantity are present. -/
def MouvementStock.saveRecompute (m : MouvementRow) : MouvementRow :=
  match m.prix_achat_unitaire with
  | some c =>
    if c ≠ 0 ∧ m.quantite ≠ 0 then
      { m with cout_total := some ((m.quantite.natAbs : Int) * c) }
    else m
  | none => m

/-- `MouvementStock.objects.create(...)`: save-and-append a ledger row. -/
def MouvementStock.create (db : DB) (m : MouvementRow) : DB × MouvementRow :=
  let m1 := MouvementStock.saveRecompute m
  ({ db with mouvements := db.mouvements ++ [m1] }, m1)

/-- The body of `OrderItem.save` that recomputes the derived columns:
`final_price = discount_price if discount_price > 0 else price` and
`total_price = qty * final_price`. -/
def OrderItem.recompute (it : OrderItemRow) : OrderItemRow :=
  let fp := if it.discount_price > 0 then it.discount_price else it.price
  { it with final_price := fp, total_price := (it.qty : Int) * fp }

/-- `aprovision.signals.tracer_vente_produit`: post-save receiver fired
when an `OrderItem` row is first created; appends a `SORTIE_VENTE`
ledger row computed from the in-memory product instance `prodObj`. -/
def tracer_vente_produit (db : DB) (it : OrderItemRow) (prodObj : Product)
    (ordObj : OrderRow) : DB :=
  (MouvementStock.create db
    { produitId := prodObj.id
      type_mouvement := TypeMouvement.SORTIE_VENTE
      quantite := -(it.qty : Int)
      stock_avant := prodObj.qty + it.qty
      stock_apres := prodObj.qty
      prix_achat_unitaire := none
      cout_total := none
      reference_commande := some ordObj.id
      reference_depense := none }).1

/-- `OrderItem.save` on a fresh instance (an INSERT): recompute the
derived columns, append the row, fire the creation signal
(`tracer_vente_produit`), then save the parent order. -/
def OrderItem.saveInsert (now : Now) (db : DB) (it : OrderItemRow) (prodObj : Product)
    (ordObj : OrderRow) : DB × OrderItemRow × OrderRow :=
  let it2 := OrderItem.recompute it
  let db1 := { db with orderItems := db.orderItems ++ [it2] }
  let db2 := tracer_vente_produit db1 it2 prodObj ordObj
  let (db3, o1) := Order.save now db2 ordObj
  (db3, it2, o1)

/-- `OrderItem.save` on an existing instance (an UPDATE): recompute the
derived columns, update the row (no creation signal), save the parent. -/
def OrderItem.saveUpdate (now : Now) (db : DB) (it : OrderItemRow)
    (ordObj : OrderRow) : DB × OrderItemRow × OrderRow :=
  let it2 := OrderItem.recompute it
  let db1 := writeItem db it2
  let (db2, o1) := Order.save now db1 ordObj
  (db2, it2, o1)

/-! ## Payment operations -/

/-- `order.models.update_order_payment_status_on_save` /
`…_on_delete`: re-derive `is_paid` from the in-memory order instance and
write only that column of the row. -/
def update_order_payment_status (db : DB) (ordObj : OrderRow) : DB × OrderRow :=
  let b := is_fully_paid db ordObj
  (writeIsPaid db ordObj.id b, { ordObj with is_paid := b })

/-- `Payment.objects.create(order=…, amount=…, …)` followed by the
post-save receiver. -/
def Payment.create (db : DB) (ordObj : OrderRow) (amount : Int)
    (method note : String) : DB × PaymentRow × OrderRow :=
  let pay : PaymentRow :=
    { id := nextPaymentId db, orderId := ordObj.id, amount := amount
      method := method, note := note }
  let db1 := { db with payments := db.payments ++ [pay] }
  let (db2, o1) := update_order_payment_status db1 ordObj
  (db2, pay, o1)

/-- `order.views.ajax_add_payment` (views.py lines 522-574): validate the
amount, create the payment, refresh `is_paid` and fully save the order. -/
def ajax_add_payment (now : Now) (db : DB) (oid : Nat) (amount : Int)
    (method note : String) : Except String DB :=
  match findOrder db oid with
  | none => Except.error "commande_introuvable"
  | some order =>
    if amount ≤ 0 then Except.error "montant_non_positif"
    else if amount > remaining_amount db order then Except.error "depasse_montant_restant"
    else
      let (db1, _pay, o1) := Payment.create db order amount method note
      let o2 := { o1 with is_paid := is_fully_paid db1 o1 }
      let (db2, _o3) := Order.save now db1 o2
      Except.ok db2

/-- `order.views.ajax_delete_payment` (views.py lines 577-610): delete
the payment row, fire the post-delete receiver, refresh `is_paid` and
fully save the order. -/
def ajax_delete_payment (now : Now) (db : DB) (oid payId : Nat) : Except String DB :=
  match findOrder db oid with
  | none => Except.error "commande_introuvable"
  | some order =>
    match db.payments.find? (fun p => p.id == payId && p.orderId == oid) with
    | none => Except.error "paiement_introuvable"
    | some _pay =>
      let db1 := { db with payments := db.payments.filter (fun p => p.id != payId) }
      let (db2, o1) := update_order_payment_status db1 order
      let o2 := { o1 with is_paid := is_fully_paid db2 o1 }
      let (db3, _o3) := Order.save now db2 o2
      Except.ok db3

/-! ## Order-item views -/

/-- `order.views.ajax_add_product` (views.py lines 328-374): reject when
out of stock; get-or-create the order item (creation inserts a row with
the field defaults, firing the sale signal, and is then updated with the
snapshotted product prices); finally decrement and save the product. -/
def ajax_add_product (now : Now) (db : DB) (oid pid : Nat) : Except String DB :=
  match findOrder db oid, findProduct db pid with
  | none, _ => Except.error "commande_introuvable"
  | _, none => Except.error "produit_introuvable"
  | some order, some product =>
    if product.qty ≤ 0 then Except.error "rupture_de_stock"
    else
      match db.orderItems.find? (fun i => i.orderId == oid && i.productId == pid) with
      | none =>
        let it0 : OrderItemRow :=
          { id := nextItemId db, orderId := oid, productId := pid
            qty := 1, price := 0, discount_price := 0, final_price := 0, total_price := 0 }
        let (db1, it1, _) := OrderItem.saveInsert now db it0 product order
        let it2 := { it1 with qty := 1, price := product.value, discount_price := product.discount_value }
        let (db2, _, _) := OrderItem.saveUpdate now db1 it2 order
        let (db3, _) := Product.save db2 { product with qty := product.qty - 1 }
        Except.ok db3
      | some it =>
        let it2 := { it with qty := it.qty + 1 }
        let (db2, _, _) := OrderItem.saveUpdate now db it2 order
        let (db3, _) := Product.save db2 { product with qty := product.qty - 1 }
        Except.ok db3

/-- The three actions of `order.views.ajax_modify_order_item`. -/
inductive ModifyAction where
  | add
  | remove
  | delete
deriving DecidableEq, Repr

/-- `order.models.delete_order_item` (post-delete receiver on
`OrderItem`): restore the product quantity and save the parent order.
`prodObj` is the in-memory product instance cached on the deleted item. -/
def delete_order_item (now : Now) (db : DB) (it : OrderItemRow) (prodObj : Product)
    (ordObj : OrderRow) : DB × Product × OrderRow :=
  let p1 := { prodObj with qty := prodObj.qty + it.qty }
  let (db1, p2) := Product.save db p1
  let (db2, o1) := Order.save now db1 ordObj
  (db2, p2, o1)

/-- `aprovision.signals.annuler_mouvement_vente` (second post-delete
receiver on `OrderItem`): restore the product quantity again and append
an `AJUSTEMENT_PLUS` ledger row documenting the restoration. -/
def annuler_mouvement_vente (db : DB) (it : OrderItemRow) (prodObj : Product) :
    DB × Product :=
  let p1 := { prodObj with qty := prodObj.qty + it.qty }
  let (db1, p2) := Product.save db p1
  let db2 := (MouvementStock.create db1
    { produitId := p2.id
      type_mouvement := TypeMouvement.AJUSTEMENT_PLUS
      quantite := (it.qty : Int)
      stock_avant := p2.qty - it.qty
      stock_apres := p2.qty
      prix_achat_unitaire := none
      cout_total := none
      reference_commande := none
      reference_depense := none }).1
  (db2, p2)

/-- `order_item.delete()`: remove the row, then fire the two post-delete
receivers in connection order (`delete_order_item` is connected at model
import, `annuler_mouvement_vente` when the aprovision app becomes
ready). -/
def OrderItem.delete (now : Now) (db : DB) (it : OrderItemRow) (prodObj : Product)
    (ordObj : OrderRow) : DB × Product × OrderRow :=
  let db1 := { db with orderItems := db.orderItems.filter (fun r => r.id != it.id) }
  let (db2, p2, o1) := delete_order_item now db1 it prodObj ordObj
  let (db3, p3) := annuler_mouvement_vente db2 it p2
  (db3, p3, o1)

/-- `order.views.ajax_modify_order_item` (views.py lines 377-429). -/
def ajax_modify_order_item (now : Now) (db : DB) (itemId : Nat) (action : ModifyAction) :
    Except String DB :=
  match findItem db itemId with
  | none => Except.error "item_introuvable"
  | some it =>
    match findProduct db it.productId, findOrder db it.orderId with
    | none, _ => Except.error "produit_introuvable"
    | _, none => Except.error "commande_introuvable"
    | some product, some order =>
      match action with
      | ModifyAction.remove =>
        let it1 := { it with qty := it.qty - 1 }
        let p1 := { product with qty := product.qty + 1 }
        let it2 := if it1.qty < 1 then { it1 with qty := 1 } else it1
        let (db1, _) := Product.save db p1
        let (db2, _, _) := OrderItem.saveUpdate now db1 it2 order
        Except.ok db2
      | ModifyAction.add =>
        if product.qty ≤ 0 then Except.error "rupture_de_stock"
        else
          let it1 := { it with qty := it.qty + 1 }
          let p1 := { product with qty := product.qty - 1 }
          let (db1, _) := Product.save db p1
          let (db2, _, _) := OrderItem.saveUpdate now db1 it1 order
          Except.ok db2
      | ModifyAction.delete =>
        let p1 := { product with qty := product.qty + it.qty }
        let (db1, p2, _o1) := OrderItem.delete now db it p1 order
        let (db2, _) := Product.save db1 p2
        Except.ok db2

/-! ## Replenishment (`ApprovisionnementManager.create_approvisionnement`) -/

/-- `TypeDepense.objects.get_or_create(nom="Approvisionnement", …)`. -/
def getOrCreateTypeAppro (db : DB) : DB × TypeDepenseRow :=
  match db.typeDepenses.find? (fun t => t.nom == "Approvisionnement") with
  | some t => (db, t)
  | none =>
    let t : TypeDepenseRow := { id := nextTypeDepenseId db, nom := "Approvisionnement" }
    ({ db with typeDepenses := db.typeDepenses ++ [t] }, t)

/-- `Depense.objects.create(...)` inside the replenishment workflow. -/
def Depense.create (db : DB) (typeId : Nat) (montant : Int)
    (fournisseur reference : String) : DB × DepenseRow :=
  let d : DepenseRow :=
    { id := nextDepenseId db, typeDepenseId := typeId, montant := montant
      fournisseur := fournisseur, reference := reference }
  ({ db with depenses := db.depenses ++ [d] }, d)

/-- `ApprovisionnementManager.create_approvisionnement` (aprovision/
models.py lines 132-182), the success path: resolve the expense type,
create the expense (`montant = quantite * prix`), capture the old stock,
increment and save the product, and append the `ENTREE` ledger row. -/
def create_approvisionnement (db : DB) (produit : Product) (quantite : Nat)
    (prix : Int) (fournisseur reference : String) :
    DB × DepenseRow × MouvementRow × Product :=
  let (db1, _typeAppro) := getOrCreateTypeAppro db
  let cout : Int := (quantite : Int) * prix
  let (db2, depense) := Depense.create db1 _typeAppro.id cout fournisseur reference
  let stockAvant := produit.qty
  let (db3, p2) := Product.save db2 { produit with qty := produit.qty + quantite }
  let (db4, mouvement) := MouvementStock.create db3
    { produitId := produit.id
      type_mouvement := TypeMouvement.ENTREE
      quantite := (quantite : Int)
      stock_avant := stockAvant
      stock_apres := p2.qty
      prix_achat_unitaire := some prix
      cout_total := some cout
      reference_commande := none
      reference_depense := some depense.id }
  (db4, depense, mouvement, p2)

/-- The same workflow with an explicit failure point: `failAt = some k`
raises an exception while executing step `k` (0 = expense-type lookup,
1 = expense creation, 2 = product update, 3 = ledger append), after the
preceding steps have already written their rows. -/
def createApproFailable (db : DB) (produit : Product) (quantite : Nat)
    (prix : Int) (fournisseur reference : String) (failAt : Option Nat) :
    Except Unit (DB × DepenseRow × MouvementRow × Product) :=
  if failAt = some 0 then Except.error () else
  let (db1, _typeAppro) := getOrCreateTypeAppro db
  if failAt = some 1 then Except.error () else
  let cout : Int := (quantite : Int) * prix
  let (db2, depense) := Depense.create db1 _typeAppro.id cout fournisseur reference
  if failAt = some 2 then Except.error () else
  let stockAvant := produit.qty
  let (db3, p2) := Product.save db2 { produit with qty := produit.qty + quantite }
  if failAt = some 3 then Except.error () else
  let (db4, mouvement) := MouvementStock.create db3
    { produitId := produit.id
      type_mouvement := TypeMouvement.ENTREE
      quantite := (quantite : Int)
      stock_avant := stockAvant
      stock_apres := p2.qty
      prix_achat_unitaire := some prix
      cout_total := some cout
      reference_commande := none
      reference_depense := some depense.id }
  Except.ok (db4, depense, mouvement, p2)

/-- The `with transaction.atomic()` boundary around the workflow: on any
exception the database reverts to its state at entry. -/
def approAtomic (db : DB) (produit : Product) (quantite : Nat) (prix : Int)
    (fournisseur reference : String) (failAt : Option Nat) : DB :=
  match createApproFailable db produit quantite prix fournisseur reference failAt with
  | Except.ok (db1, _, _, _) => db1
  | Except.error _ => db

/-! ## Generic list lemmas for row updates -/

/-- Updating every row matched by `p` to the fixed row `b` (with `p b`)
and then selecting by `p` yields `b` exactly when a match existed. -/
theorem find?_writeConst {α : Type} (p : α → Bool) (b : α) (hb : p b = true) :
    ∀ l : List α, (l.map fun a => if p a then b else a).find? p
      = if l.any p then some b else none := by
  intro l
  induction l with
  | nil => simp
  | cons a t ih =>
    by_cases h : p a = true
    · simp [h, hb]
    · simp only [Bool.not_eq_true] at h
      simp [h, ih]

/-- A constant row update keyed by `p` does not change lookups by a
predicate `q` that neither the matched rows nor `b` satisfy. -/
theorem find?_writeConst_ne {α : Type} (p q : α → Bool) (b : α)
    (hb : q b = false) (hpq : ∀ a, p a = true → q a = false) :
    ∀ l : List α, (l.map fun a => if p a then b else a).find? q = l.find? q := by
  intro l
  induction l with
  | nil => simp
  | cons a t ih =>
    by_cases h : p a = true
    · simp [h, hb, hpq a h, ih]
    · simp only [Bool.not_eq_true] at h
      by_cases hq : q a = true
      · simp [h, hq]
      · simp only [Bool.not_eq_true] at hq
        simp [h, hq, ih]

/-- Updating rows matched by `p` through `f` (with `f` preserving `p`)
maps the `find?` result through `f`. -/
theorem find?_mapUpdate {α : Type} (p : α → Bool) (f : α → α)
    (hf : ∀ a, p a = true → p (f a) = true) :
    ∀ l : List α, (l.map fun a => if p a then f a else a).find? p
      = (l.find? p).map f := by
  intro l
  induction l with
  | nil => simp
  | cons a t ih =>
    by_cases h : p a = true
    · simp [h, hf a h]
    · simp only [Bool.not_eq_true] at h
      simp [h, ih]

/-- If no row matches `p`, the row update is the identity. -/
theorem map_writeConst_of_all_neg {α : Type} (p : α → Bool) (b : α) :
    ∀ l : List α, (∀ a ∈ l, p a = false) → (l.map fun a => if p a then b else a) = l := by
  intro l
  induction l with
  | nil => simp
  | cons a t ih =>
    intro hall
    have ha := hall a (List.mem_cons_self a t)
    simp [ha, ih (fun x hx => hall x (List.mem_cons_of_mem a hx))]

/-- If the only row matching `p` is `b` itself, updating every match to
`b` is the identity. -/
theorem map_writeConst_of_filter_singleton {α : Type} (p : α → Bool) (b : α) :
    ∀ l : List α, l.filter p = [b] → (l.map fun a => if p a then b else a) = l := by
  intro l
  induction l with
  | nil => simp
  | cons a t ih =>
    intro hfil
    by_cases h : p a = true
    · simp [List.filter_cons, h] at hfil
      obtain ⟨hab, htail⟩ := hfil
      simp [h, hab, map_writeConst_of_all_neg p b t htail]
    · simp only [Bool.not_eq_true] at h
      simp [List.filter_cons, h] at hfil
      simp [h, ih hfil]

/-- Every key in the list is bounded by the running `foldr max`. -/
theorem key_le_foldr_max {α : Type} (keyf : α → Nat) :
    ∀ (l : List α) (a : α), a ∈ l → keyf a ≤ l.foldr (fun x m => max (keyf x) m) 0 := by
  intro l
  induction l with
  | nil => intro a ha; cases ha
  | cons x t ih =>
    intro a ha
    rcases List.mem_cons.mp ha with h | h
    · subst h; exact Nat.le_max_left _ _
    · exact le_trans (ih a h) (Nat.le_max_right _ _)

/-- Two successive keyed row updates collapse to the last one when they
target the same key. -/
theorem map_writeConst_writeConst {α : Type} (p : α → Bool) (b c : α)
    (hb : p b = true) :
    ∀ l : List α, ((l.map fun a => if p a then b else a).map fun a => if p a then c else a)
      = l.map fun a => if p a then c else a := by
  intro l
  induction l with
  | nil => simp
  | cons a t ih =>
    by_cases h : p a = true
    · simp [h, hb, ih]
    · simp only [Bool.not_eq_true] at h
      simp [h, ih]

/-! ## C2 / C3: replenishment -/

/-- Reading back the quantity of a just-saved product row. -/
theorem writeProduct_find_qty (db : DB) (p1 : Product) :
    ((writeProduct db p1).products.find? (fun x => x.id == p1.id)).map (fun x => x.qty)
      = (db.products.find? (fun x => x.id == p1.id)).map (fun _ => p1.qty) := by
  unfold writeProduct
  rw [find?_mapUpdate (fun x => x.id == p1.id) (fun _ => p1) (fun a _ => by simp)]
  cases db.products.find? (fun x => x.id == p1.id) <;> simp

/-- The expense-type lookup step only ever touches the expense-type
table. -/
theorem getOrCreateTypeAppro_tables (db : DB) :
    (getOrCreateTypeAppro db).1.products = db.products ∧
    (getOrCreateTypeAppro db).1.orders = db.orders ∧
    (getOrCreateTypeAppro db).1.orderItems = db.orderItems ∧
    (getOrCreateTypeAppro db).1.payments = db.payments ∧
    (getOrCreateTypeAppro db).1.mouvements = db.mouvements ∧
    (getOrCreateTypeAppro db).1.depenses = db.depenses := by
  unfold getOrCreateTypeAppro
  cases h : db.typeDepenses.find? (fun t => t.nom == "Approvisionnement") <;> simp

/-- Reading back the quantity of a just-written product row (list form). -/
theorem find_qty_after_write (l : List Product) (p1 : Product) :
    ((l.map fun r => if r.id == p1.id then p1 else r).find? (fun x => x.id == p1.id)).map
        (fun x => x.qty)
      = (l.find? (fun x => x.id == p1.id)).map (fun _ => p1.qty) := by
  rw [find?_mapUpdate (fun x => x.id == p1.id) (fun _ => p1) (fun a _ => by simp)]
  cases l.find? (fun x => x.id == p1.id) <;> simp

/-- C2: for every replenishment call with quantity `Q` and unit cost `C`
on a product with stock `S = produit.qty`, the operation creates exactly
one Expense with `montant = Q*C`, sets the product's `qty` to `S + Q`
(both on the returned instance and on the persisted row), and appends
exactly one `ENTREE` ledger row with `quantite = Q`,
`cout_total = Q*C`, `stock_avant = S` and `stock_apres = stock_avant + Q`. -/
theorem C2_create_approvisionnement_correct
    (db : DB) (produit : Product) (Q : Nat) (C : Int) (f r : String) :
    (create_approvisionnement db produit Q C f r).2.1.montant = (Q : Int) * C ∧
    (create_approvisionnement db produit Q C f r).1.depenses
      = db.depenses ++ [(create_approvisionnement db produit Q C f r).2.1] ∧
    (create_approvisionnement db produit Q C f r).2.2.2.qty = produit.qty + Q ∧
    ((create_approvisionnement db produit Q C f r).1.products.find?
        (fun x => x.id == produit.id)).map (fun x => x.qty)
      = (db.products.find? (fun x => x.id == produit.id)).map (fun _ => produit.qty + Q) ∧
    (create_approvisionnement db produit Q C f r).1.mouvements
      = db.mouvements ++ [(create_approvisionnement db produit Q C f r).2.2.1] ∧
    (create_approvisionnement db produit Q C f r).2.2.1.type_mouvement = TypeMouvement.ENTREE ∧
    (create_approvisionnement db produit Q C f r).2.2.1.quantite = (Q : Int) ∧
    (create_approvisionnement db produit Q C f r).2.2.1.cout_total = some ((Q : Int) * C) ∧
    (create_approvisionnement db produit Q C f r).2.2.1.stock_avant = produit.qty ∧
    (create_approvisionnement db produit Q C f r).2.2.1.stock_apres
      = (create_approvisionnement db produit Q C f r).2.2.1.stock_avant + Q := by
  obtain ⟨hprod, -, -, -, hmouv, hdep⟩ := getOrCreateTypeAppro_tables db
  rcases hg : getOrCreateTypeAppro db with ⟨db1, t0⟩
  rw [hg] at hprod hmouv hdep
  simp only at hprod hmouv hdep
  refine ⟨?_, ?_, ?_, ?_, ?_, ?_, ?_, ?_, ?_, ?_⟩
  · simp only [create_approvisionnement, hg, Depense.create, Product.save,
      MouvementStock.create, MouvementStock.saveRecompute, writeProduct]
  · simp only [create_approvisionnement, hg, Depense.create, Product.save,
      MouvementStock.create, MouvementStock.saveRecompute, writeProduct, hdep]
  · simp only [create_approvisionnement, hg, Depense.create, Product.save,
      MouvementStock.create, MouvementStock.saveRecompute, writeProduct]
  · simp only [create_approvisionnement, hg, Depense.create, Product.save,
      MouvementStock.create, MouvementStock.saveRecompute, writeProduct, hprod]
    have := find_qty_after_write db.products
      { produit with
        qty := produit.qty + Q
        final_value := if produit.discount_value > 0 then produit.discount_value else produit.value }
    simpa using this
  · simp only [create_approvisionnement, hg, Depense.create, Product.save,
      MouvementStock.create, MouvementStock.saveRecompute, writeProduct, hmouv]
  · simp only [create_approvisionnement, hg, Depense.create, Product.save,
      MouvementStock.create, MouvementStock.saveRecompute, writeProduct]
    split <;> rfl
  · simp only [create_approvisionnement, hg, Depense.create, Product.save,
      MouvementStock.create, MouvementStock.saveRecompute, writeProduct]
    split <;> rfl
  · simp only [create_approvisionnement, hg, Depense.create, Product.save,
      MouvementStock.create, MouvementStock.saveRecompute, writeProduct]
    split <;> simp
  · simp only [create_approvisionnement, hg, Depense.create, Product.save,
      MouvementStock.create, MouvementStock.saveRecompute, writeProduct]
    split <;> rfl
  · simp only [create_approvisionnement, hg, Depense.create, Product.save,
      MouvementStock.create, MouvementStock.saveRecompute, writeProduct]
    split <;> rfl

/-- C3: if any step of the replenishment workflow raises, the enclosing
`transaction.atomic()` block rolls everything back: the database after
the call is exactly the database before it, so in particular no expense
row, no ledger row and no product-quantity change is visible. -/
theorem C3_replenishment_rollback
    (db : DB) (produit : Product) (Q : Nat) (C : Int) (f r : String) (k : Nat)
    (hk : k < 4) :
    approAtomic db produit Q C f r (some k) = db ∧
    (approAtomic db produit Q C f r (some k)).depenses = db.depenses ∧
    (approAtomic db produit Q C f r (some k)).mouvements = db.mouvements ∧
    (approAtomic db produit Q C f r (some k)).products = db.products := by
  have herr : createApproFailable db produit Q C f r (some k) = Except.error () := by
    rcases hg : getOrCreateTypeAppro db with ⟨db1, t0⟩
    interval_cases k <;>
      simp [createApproFailable, hg, Depense.create, Product.save, MouvementStock.create]
  have hmain : approAtomic db produit Q C f r (some k) = db := by
    unfold approAtomic
    rw [herr]
  exact ⟨hmain, by rw [hmain], by rw [hmain], by rw [hmain]⟩

/-- Fixture for the C3 witness: one product, empty ledgers. -/
def dbC3 : DB :=
  { products := [{ id := 1, title := "the", value := 100, discount_value := 0,
                   final_value := 100, qty := 3, prix_achat := 40 }]
    orders := [], orderItems := [], payments := [], mouvements := []
    typeDepenses := [], depenses := [] }

/-- Fixture product instance for the C3 witness. -/
def prodC3 : Product :=
  { id := 1, title := "the", value := 100, discount_value := 0,
    final_value := 100, qty := 3, prix_achat := 40 }

/-- Witness for C3: a concrete failure in step 2 (the product update)
leaves the concrete database untouched. -/
theorem C3_replenishment_rollback_witness :
    approAtomic dbC3 prodC3 10 50 "" "" (some 2) = dbC3 ∧
    (approAtomic dbC3 prodC3 10 50 "" "" (some 2)).depenses = dbC3.depenses ∧
    (approAtomic dbC3 prodC3 10 50 "" "" (some 2)).mouvements = dbC3.mouvements ∧
    (approAtomic dbC3 prodC3 10 50 "" "" (some 2)).products = dbC3.products :=
  C3_replenishment_rollback dbC3 prodC3 10 50 "" "" 2 (by decide)

/-! ## C6: over-payment rejection -/

/-- C6: a payment whose amount strictly exceeds the order's remaining
amount is rejected by `ajax_add_payment` before any `Payment` row is
persisted: the view returns the validation error and produces no new
database state. -/
theorem C6_add_payment_exceeding_rejected
    (now : Now) (db : DB) (oid : Nat) (A : Int) (method note : String) (o : OrderRow)
    (ho : findOrder db oid = some o)
    (hA : A > remaining_amount db o) :
    ajax_add_payment now db oid A method note = Except.error "depasse_montant_restant" := by
  have hr : (0 : Int) ≤ remaining_amount db o := le_max_left 0 _
  have h0 : ¬ A ≤ 0 := by omega
  unfold ajax_add_payment
  rw [ho]
  simp [h0, hA]

/-- Fixture time value shared by the view-level scenarios. -/
def nowW : Now := { timePart := "1200", micro := "123" }

/-- Fixture for C6: one order billed at 100 with no payments yet. -/
def dbC6 : DB :=
  { products := []
    orders := [{ id := 1, date := "20240101", title := "T1", value := 100,
                 discount := 0, final_value := 100, is_paid := false }]
    orderItems := [], payments := [], mouvements := [], typeDepenses := [], depenses := [] }

/-- Order row of the C6 fixture. -/
def ordC6 : OrderRow :=
  { id := 1, date := "20240101", title := "T1", value := 100,
    discount := 0, final_value := 100, is_paid := false }

/-- Witness for C6: paying 150 against a remaining amount of 100 is
rejected. -/
theorem C6_add_payment_exceeding_rejected_witness :
    ajax_add_payment nowW dbC6 1 150 "cash" "" = Except.error "depasse_montant_restant" :=
  C6_add_payment_exceeding_rejected nowW dbC6 1 150 "cash" "" ordC6 (by decide) (by decide)

/-! ## Frame lemmas: row updates touch exactly one table -/

@[simp] theorem writeOrder_products (db : DB) (x : OrderRow) :
    (writeOrder db x).products = db.products := rfl

@[simp] theorem writeOrder_orderItems (db : DB) (x : OrderRow) :
    (writeOrder db x).orderItems = db.orderItems := rfl

@[simp] theorem writeOrder_payments (db : DB) (x : OrderRow) :
    (writeOrder db x).payments = db.payments := rfl

@[simp] theorem writeOrder_mouvements (db : DB) (x : OrderRow) :
    (writeOrder db x).mouvements = db.mouvements := rfl

@[simp] theorem writeOrder_depenses (db : DB) (x : OrderRow) :
    (writeOrder db x).depenses = db.depenses := rfl

@[simp] theorem writeOrder_typeDepenses (db : DB) (x : OrderRow) :
    (writeOrder db x).typeDepenses = db.typeDepenses := rfl

@[simp] theorem writeProduct_orders (db : DB) (x : Product) :
    (writeProduct db x).orders = db.orders := rfl

@[simp] theorem writeProduct_orderItems (db : DB) (x : Product) :
    (writeProduct db x).orderItems = db.orderItems := rfl

@[simp] theorem writeProduct_payments (db : DB) (x : Product) :
    (writeProduct db x).payments = db.payments := rfl

@[simp] theorem writeProduct_mouvements (db : DB) (x : Product) :
    (writeProduct db x).mouvements = db.mouvements := rfl

@[simp] theorem writeItem_products (db : DB) (x : OrderItemRow) :
    (writeItem db x).products = db.products := rfl

@[simp] theorem writeItem_orders (db : DB) (x : OrderItemRow) :
    (writeItem db x).orders = db.orders := rfl

@[simp] theorem writeItem_payments (db : DB) (x : OrderItemRow) :
    (writeItem db x).payments = db.payments := rfl

@[simp] theorem writeItem_mouvements (db : DB) (x : OrderItemRow) :
    (writeItem db x).mouvements = db.mouvements := rfl

@[simp] theorem writeIsPaid_products (db : DB) (k : Nat) (b : Bool) :
    (writeIsPaid db k b).products = db.products := rfl

@[simp] theorem writeIsPaid_orderItems (db : DB) (k : Nat) (b : Bool) :
    (writeIsPaid db k b).orderItems = db.orderItems := rfl

@[simp] theorem writeIsPaid_payments (db : DB) (k : Nat) (b : Bool) :
    (writeIsPaid db k b).payments = db.payments := rfl

@[simp] theorem itemsOf_writeOrder (db : DB) (x : OrderRow) (k : Nat) :
    itemsOf (writeOrder db x) k = itemsOf db k := rfl

@[simp] theorem itemsOf_writeProduct (db : DB) (x : Product) (k : Nat) :
    itemsOf (writeProduct db x) k = itemsOf db k := rfl

@[simp] theorem itemsOf_writeIsPaid (db : DB) (k' : Nat) (b : Bool) (k : Nat) :
    itemsOf (writeIsPaid db k' b) k = itemsOf db k := rfl

@[simp] theorem itemsSum_writeOrder (db : DB) (x : OrderRow) (k : Nat) :
    itemsSum (writeOrder db x) k = itemsSum db k := rfl

@[simp] theorem itemsSum_writeProduct (db : DB) (x : Product) (k : Nat) :
    itemsSum (writeProduct db x) k = itemsSum db k := rfl

@[simp] theorem itemsSum_writeIsPaid (db : DB) (k' : Nat) (b : Bool) (k : Nat) :
    itemsSum (writeIsPaid db k' b) k = itemsSum db k := rfl

@[simp] theorem total_payments_writeOrder (db : DB) (x : OrderRow) (o : OrderRow) :
    total_payments (writeOrder db x) o = total_payments db o := rfl

@[simp] theorem total_payments_writeProduct (db : DB) (x : Product) (o : OrderRow) :
    total_payments (writeProduct db x) o = total_payments db o := rfl

@[simp] theorem total_payments_writeItem (db : DB) (x : OrderItemRow) (o : OrderRow) :
    total_payments (writeItem db x) o = total_payments db o := rfl

@[simp] theorem total_payments_writeIsPaid (db : DB) (k : Nat) (b : Bool) (o : OrderRow) :
    total_payments (writeIsPaid db k b) o = total_payments db o := rfl

@[simp] theorem findProduct_writeOrder (db : DB) (x : OrderRow) (k : Nat) :
    findProduct (writeOrder db x) k = findProduct db k := rfl

@[simp] theorem findProduct_writeItem (db : DB) (x : OrderItemRow) (k : Nat) :
    findProduct (writeItem db x) k = findProduct db k := rfl

@[simp] theorem findOrder_writeProduct (db : DB) (x : Product) (k : Nat) :
    findOrder (writeProduct db x) k = findOrder db k := rfl

@[simp] theorem findOrder_writeItem (db : DB) (x : OrderItemRow) (k : Nat) :
    findOrder (writeItem db x) k = findOrder db k := rfl

/-! ## Lookup-after-update lemmas -/

/-- A successful `find?` forces `any` to hold. -/
theorem any_of_find? {α : Type} (p : α → Bool) (l : List α) (a : α)
    (h : l.find? p = some a) : l.any p = true :=
  List.any_eq_true.mpr ⟨a, List.mem_of_find?_eq_some h, List.find?_some h⟩

/-- Looking up an order row right after writing it. -/
theorem findOrder_after_writeOrder (db : DB) (b : OrderRow) :
    findOrder (writeOrder db b) b.id
      = if db.orders.any (fun r => r.id == b.id) then some b else none := by
  unfold findOrder writeOrder
  exact find?_writeConst (fun r => r.id == b.id) b (by simp) db.orders

/-- Two successive order-row writes targeting the same key collapse. -/
theorem writeOrder_writeOrder (db : DB) (a b : OrderRow) (hab : a.id = b.id) :
    writeOrder (writeOrder db a) b = writeOrder db b := by
  unfold writeOrder
  simp only
  congr 1
  have hpa : (fun r : OrderRow => r.id == b.id) a = true := by simp [hab]
  have := map_writeConst_writeConst (fun r : OrderRow => r.id == b.id) a b hpa db.orders
  calc (db.orders.map fun r => if r.id == a.id then a else r).map
        (fun r => if r.id == b.id then b else r)
      = ((db.orders.map fun r => if r.id == b.id then a else r).map
          (fun r => if r.id == b.id then b else r)) := by rw [hab]
    _ = db.orders.map fun r => if r.id == b.id then b else r := this

/-! ## Effect of `Order.save` -/

/-- The row that `Order.save` leaves persisted: the recomputed totals
when the order has items, otherwise the instance as it was on entry
(the recomputation of an empty order is not written back). -/
def orderPersistedRow (db : DB) (o : OrderRow) : OrderRow :=
  if (itemsOf db o.id).isEmpty then o
  else { o with value := itemsSum db o.id, final_value := itemsSum db o.id - o.discount }

/-- The in-memory instance `Order.save` returns. -/
def orderSavedInstance (db : DB) (o : OrderRow) : OrderRow :=
  { o with
    value := if (itemsOf db o.id).isEmpty then 0 else itemsSum db o.id
    final_value := (if (itemsOf db o.id).isEmpty then 0 else itemsSum db o.id) - o.discount }

/-- `Order.save` on an instance with a nonblank title writes exactly the
persisted row and returns the recomputed instance. -/
theorem Order.save_effect (now : Now) (db : DB) (o : OrderRow)
    (ht : strBlank o.title = false) :
    Order.save now db o = (writeOrder db (orderPersistedRow db o), orderSavedInstance db o) := by
  unfold Order.save orderPersistedRow orderSavedInstance
  rw [ht]
  by_cases he : (itemsOf db o.id).isEmpty
  · simp [he]
  · simp only [Bool.false_eq_true, if_false, itemsOf_writeOrder, he, itemsSum_writeOrder]
    rw [writeOrder_writeOrder]
    rfl

/-! ## C10: `remove` action on a one-unit item -/

/-- C10: applying the `remove` action to an OrderItem whose `qty` is
already 1 leaves the item row unchanged (qty floored back to 1) and the
parent order row unchanged, but still increments the referenced
product's persisted `qty` by 1 — so repeated `remove` actions strictly
increase product stock without changing the order. -/
theorem C10_remove_on_unit_item_inflates_stock
    (now : Now) (db : DB) (itemId : Nat) (it : OrderItemRow) (p : Product) (o : OrderRow)
    (hit : findItem db itemId = some it)
    (hq : it.qty = 1)
    (hfil : db.orderItems.filter (fun r => r.id == it.id) = [it])
    (hp : findProduct db it.productId = some p)
    (ho : findOrder db it.orderId = some o)
    (ht : strBlank o.title = false)
    (hfp : it.final_price = (if it.discount_price > 0 then it.discount_price else it.price))
    (htp : it.total_price = (it.qty : Int) * it.final_price)
    (hval : o.value = itemsSum db o.id)
    (hfin : o.final_value = o.value - o.discount) :
    ∃ db', ajax_modify_order_item now db itemId ModifyAction.remove = Except.ok db' ∧
      db'.orderItems = db.orderItems ∧
      productQty db' it.productId = some (p.qty + 1) ∧
      findOrder db' o.id = some o := by
  have hoid : o.id = it.orderId := by
    have := List.find?_some ho
    simpa using this
  have hpid : p.id = it.productId := by
    have := List.find?_some hp
    simpa using this
  have hitmem : it ∈ db.orderItems := List.mem_of_find?_eq_some hit
  -- the item written back by the `remove` branch is the original row
  have hitem : OrderItem.recompute { it with qty := 1 } = it := by
    obtain ⟨iid, ioid, ipid, iqty, iprice, idp, ifp, itp⟩ := it
    simp only at hq hfp htp ⊢
    subst hq
    simp [OrderItem.recompute, ← hfp, htp]
  -- the saved product instance
  set p2 : Product :=
    { p with
      qty := p.qty + 1
      final_value := if p.discount_value > 0 then p.discount_value else p.value } with hp2
  have hitemwrite : writeItem (writeProduct db p2) it = writeProduct db p2 := by
    unfold writeItem
    have hfil' : (writeProduct db p2).orderItems.filter (fun r => r.id == it.id) = [it] := hfil
    rw [map_writeConst_of_filter_singleton (fun r => r.id == it.id) it _ hfil']
  have hitems_ne : (itemsOf (writeProduct db p2) o.id).isEmpty = false := by
    have hmem2 : it ∈ itemsOf db o.id := by
      refine List.mem_filter.mpr ⟨hitmem, ?_⟩
      simp [hoid]
    have : itemsOf (writeProduct db p2) o.id = itemsOf db o.id := rfl
    rw [this]
    cases hempty : itemsOf db o.id with
    | nil => rw [hempty] at hmem2; cases hmem2
    | cons a t => simp
  have hpersist : orderPersistedRow (writeProduct db p2) o = o := by
    unfold orderPersistedRow
    rw [hitems_ne]
    simp only [Bool.false_eq_true, if_false, itemsSum_writeProduct]
    rw [← hval, ← hfin]
  have hrun : ajax_modify_order_item now db itemId ModifyAction.remove
      = Except.ok (writeOrder (writeProduct db p2) o) := by
    simp only [ajax_modify_order_item, hit, hp, ho]
    simp only [hq, Product.save, OrderItem.saveUpdate]
    norm_num
    rw [hitem, hitemwrite, Order.save_effect now _ o ht, hpersist]
  refine ⟨writeOrder (writeProduct db p2) o, hrun, rfl, ?_, ?_⟩
  · show ((writeProduct db p2).products.find? (fun r => r.id == it.productId)).map
        (fun x => x.qty) = some (p.qty + 1)
    have hq2 : ((writeProduct db p2).products.find? (fun r => r.id == p2.id)).map
        (fun x => x.qty) = (db.products.find? (fun r => r.id == p2.id)).map
        (fun _ => p2.qty) := by
      unfold writeProduct
      exact find_qty_after_write db.products p2
    have hidswap : p2.id = it.productId := by rw [hp2]; exact hpid
    rw [← hidswap]
    rw [hq2]
    have : db.products.find? (fun r => r.id == p2.id) = some p := by
      rw [hidswap]; exact hp
    rw [this]
    rfl
  · have hany : (writeProduct db p2).orders.any (fun r => r.id == o.id) = true := by
      have : db.orders.any (fun r => r.id == it.orderId) = true := by
        have hfind : db.orders.find? (fun r => r.id == it.orderId) = some o := ho
        exact any_of_find? _ _ _ hfind
      rw [hoid]
      exact this
    have := findOrder_after_writeOrder (writeProduct db p2) o
    rw [hany] at this
    exact this

/-- Fixture product for the C10 witness. -/
def prodC10 : Product :=
  { id := 1, title := "savon", value := 100, discount_value := 0,
    final_value := 100, qty := 5, prix_achat := 60 }

/-- Fixture order for the C10 witness. -/
def ordC10 : OrderRow :=
  { id := 1, date := "20240101", title := "T1", value := 100,
    discount := 0, final_value := 100, is_paid := false }

/-- Fixture order item (qty 1) for the C10 witness. -/
def itC10 : OrderItemRow :=
  { id := 1, orderId := 1, productId := 1, qty := 1,
    price := 100, discount_price := 0, final_price := 100, total_price := 100 }

/-- Fixture database for the C10 witness. -/
def dbC10 : DB :=
  { products := [prodC10]
    orders := [ordC10]
    orderItems := [itC10]
    payments := [], mouvements := [], typeDepenses := [], depenses := [] }

/-- Witness for C10 at a concrete one-unit item. -/
theorem C10_remove_on_unit_item_inflates_stock_witness :
    ∃ db', ajax_modify_order_item nowW dbC10 1 ModifyAction.remove = Except.ok db' ∧
      db'.orderItems = dbC10.orderItems ∧
      productQty db' itC10.productId = some (prodC10.qty + 1) ∧
      findOrder db' ordC10.id = some ordC10 :=
  C10_remove_on_unit_item_inflates_stock nowW dbC10 1 itC10 prodC10 ordC10
    (by decide) (by decide) (by decide) (by decide) (by decide) (by decide)
    (by decide) (by decide) (by decide) (by decide)

/-! ## Payment-flow helper lemmas -/

/-- A persisted order whose stored totals already agree with its items
is written back unchanged by the recomputation. -/
theorem orderPersistedRow_eq_self (db : DB) (o : OrderRow)
    (hval : o.value = itemsSum db o.id)
    (hfin : o.final_value = o.value - o.discount) :
    orderPersistedRow db o = o := by
  unfold orderPersistedRow
  by_cases he : (itemsOf db o.id).isEmpty
  · simp [he]
  · simp only [he, Bool.false_eq_true, if_false]
    rw [← hval, ← hfin]

/-- Looking up the order that was just written, knowing a row with that
id existed. -/
theorem findOrder_writeOrder_of_found (db : DB) (b : OrderRow) (k : Nat) (hk : b.id = k)
    (a : OrderRow) (h : findOrder db k = some a) :
    findOrder (writeOrder db b) k = some b := by
  subst hk
  unfold findOrder writeOrder
  have := find?_writeConst (fun r : OrderRow => r.id == b.id) b (by simp) db.orders
  rw [this, any_of_find? _ _ _ h]
  rfl

/-- `writeIsPaid` maps the looked-up row through the `is_paid` update. -/
theorem findOrder_writeIsPaid_self (db : DB) (k : Nat) (b : Bool) :
    findOrder (writeIsPaid db k b) k = (findOrder db k).map (fun r => { r with is_paid := b }) := by
  unfold findOrder writeIsPaid
  exact find?_mapUpdate (fun r : OrderRow => r.id == k)
    (fun r => { r with is_paid := b }) (fun a ha => ha) db.orders

/-- Appending a payment belonging to order `k` adds its amount to the
filtered sum. -/
theorem paySum_append_match (l : List PaymentRow) (pay : PaymentRow) (k : Nat)
    (hpay : pay.orderId = k) :
    (((l ++ [pay]).filter (fun p => p.orderId == k)).map (fun p => p.amount)).sum
      = ((l.filter (fun p => p.orderId == k)).map (fun p => p.amount)).sum + pay.amount := by
  simp [List.filter_append, hpay]

/-- `find?` skips a first block in which nothing matches. -/
theorem find?_append_of_none {α : Type} (p : α → Bool) (l1 l2 : List α)
    (h : l1.find? p = none) : (l1 ++ l2).find? p = l2.find? p := by
  induction l1 with
  | nil => simp
  | cons a t ih =>
    by_cases ha : p a = true
    · rw [List.find?_cons_of_pos _ ha] at h; cases h
    · simp only [Bool.not_eq_true] at ha
      rw [List.find?_cons_of_neg _ (by simp [ha])] at h
      simp only [List.cons_append]
      rw [List.find?_cons_of_neg _ (by simp [ha])]
      exact ih h

/-- Every payment id in the table is strictly below the next
autoincrement id. -/
theorem payment_id_lt_next (db : DB) :
    ∀ x ∈ db.payments, x.id < nextPaymentId db := by
  intro x hx
  have h := key_le_foldr_max (fun p : PaymentRow => p.id) db.payments x hx
  exact Nat.lt_succ_of_le h

/-- Deleting the freshly appended payment by id restores the original
payment list. -/
theorem filter_ne_append (l : List PaymentRow) (pay : PaymentRow)
    (hfresh : ∀ x ∈ l, (x.id == pay.id) = false) :
    (l ++ [pay]).filter (fun p => p.id != pay.id) = l := by
  rw [List.filter_append]
  have h1 : l.filter (fun p => p.id != pay.id) = l := by
    apply List.filter_eq_self.mpr
    intro a ha
    have := hfresh a ha
    simp only [bne_iff_ne, ne_eq]
    intro hcontra
    rw [hcontra] at this
    simp at this
  have h2 : [pay].filter (fun p : PaymentRow => p.id != pay.id) = [] := by
    simp
  rw [h1, h2, List.append_nil]

/-- The payment row a successful `ajax_add_payment` call inserts. -/
def addPaymentRow (db : DB) (o : OrderRow) (A : Int) (method note : String) : PaymentRow :=
  { id := nextPaymentId db, orderId := o.id, amount := A, method := method, note := note }

/-- The `is_paid` flag derived right after the payment insert. -/
def addPaymentFlag (db : DB) (o : OrderRow) (A : Int) (method note : String) : Bool :=
  is_fully_paid ({ db with payments := db.payments ++ [addPaymentRow db o A method note] }) o

/-- The database state a successful `ajax_add_payment` call persists. -/
def afterAddPayment (db : DB) (o : OrderRow) (A : Int) (method note : String) : DB :=
  writeOrder
    (writeIsPaid ({ db with payments := db.payments ++ [addPaymentRow db o A method note] })
      o.id (addPaymentFlag db o A method note))
    { o with is_paid := addPaymentFlag db o A method note }

/-- The `is_paid` flag derived right after a payment delete. -/
def delPaymentFlag (db : DB) (o : OrderRow) (payId : Nat) : Bool :=
  is_fully_paid ({ db with payments := db.payments.filter (fun p => p.id != payId) }) o

/-- The database state a successful `ajax_delete_payment` call persists. -/
def afterDeletePayment (db : DB) (o : OrderRow) (payId : Nat) : DB :=
  writeOrder
    (writeIsPaid ({ db with payments := db.payments.filter (fun p => p.id != payId) })
      o.id (delPaymentFlag db o payId))
    { o with is_paid := delPaymentFlag db o payId }

/-- Effect of a successful `ajax_add_payment` call: the payment row is
appended, `is_paid` is re-derived, and the order is saved back with its
stored totals (which already agree with the items). -/
theorem ajax_add_payment_effect
    (now : Now) (db : DB) (oid : Nat) (A : Int) (method note : String) (o : OrderRow)
    (ho : findOrder db oid = some o)
    (ht : strBlank o.title = false)
    (h0 : ¬ A ≤ 0)
    (hA : ¬ A > remaining_amount db o)
    (hval : o.value = itemsSum db o.id)
    (hfin : o.final_value = o.value - o.discount) :
    ajax_add_payment now db oid A method note
      = Except.ok (afterAddPayment db o A method note) := by
  simp only [ajax_add_payment, ho, if_neg h0, if_neg hA, Payment.create,
    update_order_payment_status]
  rw [Order.save_effect]
  · rw [orderPersistedRow_eq_self]
    · rfl
    · exact hval
    · exact hfin
  · exact ht

/-- Effect of a successful `ajax_delete_payment` call. -/
theorem ajax_delete_payment_effect
    (now : Now) (db : DB) (oid payId : Nat) (o : OrderRow) (pay : PaymentRow)
    (ho : findOrder db oid = some o)
    (hpay : db.payments.find? (fun p => p.id == payId && p.orderId == oid) = some pay)
    (ht : strBlank o.title = false)
    (hval : o.value = itemsSum db o.id)
    (hfin : o.final_value = o.value - o.discount) :
    ajax_delete_payment now db oid payId
      = Except.ok (afterDeletePayment db o payId) := by
  simp only [ajax_delete_payment, ho, hpay, update_order_payment_status]
  rw [Order.save_effect]
  · rw [orderPersistedRow_eq_self]
    · rfl
    · exact hval
    · exact hfin
  · exact ht

/-! ### Observables of the two payment post-states -/

/-- Looking up the order after a payment insert. -/
theorem findOrder_afterAddPayment (db : DB) (o : OrderRow) (A : Int) (m n : String)
    (ho : findOrder db o.id = some o) :
    findOrder (afterAddPayment db o A m n) o.id
      = some { o with is_paid := addPaymentFlag db o A m n } := by
  unfold afterAddPayment
  refine findOrder_writeOrder_of_found _ _ _ rfl { o with is_paid := addPaymentFlag db o A m n } ?_
  rw [findOrder_writeIsPaid_self]
  have ho' : findOrder ({ db with payments := db.payments ++ [addPaymentRow db o A m n] }) o.id
      = some o := ho
  rw [ho']
  rfl

/-- Payment totals after a payment insert. -/
theorem total_payments_afterAddPayment (db : DB) (o : OrderRow) (A : Int) (m n : String)
    (o' : OrderRow) (hid : o'.id = o.id) :
    total_payments (afterAddPayment db o A m n) o' = total_payments db o + A := by
  unfold total_payments
  have hpay : (afterAddPayment db o A m n).payments
      = db.payments ++ [addPaymentRow db o A m n] := rfl
  rw [hpay, hid]
  exact paySum_append_match db.payments _ o.id rfl

/-- Looking up the order after a payment delete. -/
theorem findOrder_afterDeletePayment (db : DB) (o : OrderRow) (payId : Nat)
    (ho : findOrder db o.id = some o) :
    findOrder (afterDeletePayment db o payId) o.id
      = some { o with is_paid := delPaymentFlag db o payId } := by
  unfold afterDeletePayment
  refine findOrder_writeOrder_of_found _ _ _ rfl { o with is_paid := delPaymentFlag db o payId } ?_
  rw [findOrder_writeIsPaid_self]
  have ho' : findOrder ({ db with payments := db.payments.filter (fun p => p.id != payId) }) o.id
      = some o := ho
  rw [ho']
  rfl

/-! ## C5: payment round trip -/

/-- C5: for an order with consistent stored totals and any amount `A`
with `0 < A ≤ remaining_amount()`, `ajax_add_payment` succeeds and
decreases the persisted remaining amount by exactly `A`, and deleting
that same payment restores the remaining amount to its prior value. -/
theorem C5_payment_add_delete_round_trip
    (now : Now) (db : DB) (oid : Nat) (A : Int) (method note : String) (o : OrderRow)
    (ho : findOrder db oid = some o)
    (ht : strBlank o.title = false)
    (h0 : 0 < A)
    (hA : A ≤ remaining_amount db o)
    (hval : o.value = itemsSum db o.id)
    (hfin : o.final_value = o.value - o.discount) :
    ∃ db1, ajax_add_payment now db oid A method note = Except.ok db1 ∧
      orderRemaining db1 oid = some (remaining_amount db o - A) ∧
      ∃ db2, ajax_delete_payment now db1 oid (nextPaymentId db) = Except.ok db2 ∧
        orderRemaining db2 oid = some (remaining_amount db o) := by
  have hoid : o.id = oid := by
    have := List.find?_some ho
    simpa using this
  subst hoid
  have hadd := ajax_add_payment_effect now db o.id A method note o ho ht
    (not_le.mpr h0) (not_lt.mpr hA) hval hfin
  have hO1 : findOrder (afterAddPayment db o A method note) o.id
      = some { o with is_paid := addPaymentFlag db o A method note } :=
    findOrder_afterAddPayment db o A method note ho
  have hsum1 : total_payments (afterAddPayment db o A method note)
        { o with is_paid := addPaymentFlag db o A method note }
      = total_payments db o + A :=
    total_payments_afterAddPayment db o A method note _ rfl
  have hrem0 : remaining_amount db o = o.final_value - total_payments db o := by
    rcases le_or_lt (o.final_value - total_payments db o) 0 with hc | hc
    · exfalso
      have hz : remaining_amount db o = 0 := max_eq_left hc
      rw [hz] at hA
      omega
    · exact max_eq_right (le_of_lt hc)
  have hge : 0 ≤ o.final_value - (total_payments db o + A) := by
    have hA' := hA
    rw [hrem0] at hA'
    omega
  have hrem1 : remaining_amount (afterAddPayment db o A method note)
        { o with is_paid := addPaymentFlag db o A method note }
      = remaining_amount db o - A := by
    show max 0 (o.final_value - total_payments (afterAddPayment db o A method note)
        { o with is_paid := addPaymentFlag db o A method note }) = _
    rw [hsum1, hrem0, max_eq_right hge]
    omega
  have hor1 : orderRemaining (afterAddPayment db o A method note) o.id
      = some (remaining_amount db o - A) := by
    unfold orderRemaining
    rw [hO1]
    exact congrArg some hrem1
  -- deleting the freshly inserted payment
  have hnone : db.payments.find?
      (fun p => p.id == nextPaymentId db && p.orderId == o.id) = none := by
    apply List.find?_eq_none.mpr
    intro x hx
    have hlt := payment_id_lt_next db x hx
    simp only [Bool.and_eq_true, beq_iff_eq, not_and]
    intro h1
    omega
  have hfindPay : (afterAddPayment db o A method note).payments.find?
        (fun p => p.id == nextPaymentId db && p.orderId == o.id)
      = some (addPaymentRow db o A method note) := by
    show (db.payments ++ [addPaymentRow db o A method note]).find? _ = _
    rw [find?_append_of_none _ _ _ hnone]
    rw [List.find?_cons_of_pos _ (by simp [addPaymentRow])]
  have hdelfilter : (afterAddPayment db o A method note).payments.filter
        (fun p => p.id != nextPaymentId db) = db.payments := by
    show (db.payments ++ [addPaymentRow db o A method note]).filter _ = db.payments
    have hfresh : ∀ x ∈ db.payments,
        (x.id == (addPaymentRow db o A method note).id) = false := by
      intro x hx
      have hlt := payment_id_lt_next db x hx
      show (x.id == nextPaymentId db) = false
      simp only [beq_eq_false_iff_ne, ne_eq]
      omega
    exact filter_ne_append db.payments _ hfresh
  have hdel := ajax_delete_payment_effect now (afterAddPayment db o A method note) o.id
    (nextPaymentId db) { o with is_paid := addPaymentFlag db o A method note }
    (addPaymentRow db o A method note) hO1 hfindPay ht hval hfin
  have hO2 : findOrder
        (afterDeletePayment (afterAddPayment db o A method note)
          { o with is_paid := addPaymentFlag db o A method note } (nextPaymentId db)) o.id
      = some { o with is_paid := (delPaymentFlag (afterAddPayment db o A method note)
          ({ o with is_paid := addPaymentFlag db o A method note }) (nextPaymentId db)) } :=
    findOrder_afterDeletePayment (afterAddPayment db o A method note)
      { o with is_paid := addPaymentFlag db o A method note } (nextPaymentId db) hO1
  have hpays2 : (afterDeletePayment (afterAddPayment db o A method note)
        { o with is_paid := addPaymentFlag db o A method note } (nextPaymentId db)).payments
      = db.payments := hdelfilter
  have hsum2 : total_payments
        (afterDeletePayment (afterAddPayment db o A method note)
          { o with is_paid := addPaymentFlag db o A method note } (nextPaymentId db))
        { o with is_paid := (delPaymentFlag (afterAddPayment db o A method note)
          ({ o with is_paid := addPaymentFlag db o A method note }) (nextPaymentId db)) }
      = total_payments db o := by
    unfold total_payments
    rw [hpays2]
  have hrem2 : remaining_amount
        (afterDeletePayment (afterAddPayment db o A method note)
          { o with is_paid := addPaymentFlag db o A method note } (nextPaymentId db))
        { o with is_paid := (delPaymentFlag (afterAddPayment db o A method note)
          ({ o with is_paid := addPaymentFlag db o A method note }) (nextPaymentId db)) }
      = remaining_amount db o := by
    show max 0 (o.final_value - total_payments
        (afterDeletePayment (afterAddPayment db o A method note)
          { o with is_paid := addPaymentFlag db o A method note } (nextPaymentId db))
        { o with is_paid := (delPaymentFlag (afterAddPayment db o A method note)
          ({ o with is_paid := addPaymentFlag db o A method note }) (nextPaymentId db)) }) = _
    rw [hsum2]
    rfl
  refine ⟨_, hadd, hor1, _, hdel, ?_⟩
  unfold orderRemaining
  rw [hO2]
  exact congrArg some hrem2

/-- Fixture order for the C5 witness. -/
def ordC5 : OrderRow :=
  { id := 1, date := "20240101", title := "T5", value := 100,
    discount := 0, final_value := 100, is_paid := false }

/-- Fixture database for the C5 witness: one order holding one item. -/
def dbC5 : DB :=
  { products := []
    orders := [ordC5]
    orderItems := [{ id := 1, orderId := 1, productId := 1, qty := 1,
                     price := 100, discount_price := 0, final_price := 100,
                     total_price := 100 }]
    payments := [], mouvements := [], typeDepenses := [], depenses := [] }

/-- Witness for C5 at a concrete order and amount. -/
theorem C5_payment_add_delete_round_trip_witness :
    ∃ db1, ajax_add_payment nowW dbC5 1 40 "cash" "" = Except.ok db1 ∧
      orderRemaining db1 1 = some (remaining_amount dbC5 ordC5 - 40) ∧
      ∃ db2, ajax_delete_payment nowW db1 1 (nextPaymentId dbC5) = Except.ok db2 ∧
        orderRemaining db2 1 = some (remaining_amount dbC5 ordC5) :=
  C5_payment_add_delete_round_trip nowW dbC5 1 40 "cash" "" ordC5
    (by decide) (by decide) (by decide) (by decide) (by decide) (by decide)

/-! ## C4: the `is_paid` invariant -/

/-- C4 (amended): immediately after every payment event — a successful
`ajax_add_payment` or `ajax_delete_payment` — the persisted order row
satisfies: `is_paid = true` implies `remaining_amount() ≤ 0` and
`final_value > 0`, and `final_value = 0` implies `is_paid = false`.
(The claim's further demand that this hold after OrderItem changes made
after payments fails on the code; see the counterexample.) -/
theorem C4_amended_paid_invariant_after_payment_events
    (now : Now) (db : DB) (oid payId : Nat) (A : Int) (method note : String) (o : OrderRow)
    (ho : findOrder db oid = some o)
    (ht : strBlank o.title = false)
    (h0 : ¬ A ≤ 0)
    (hA : ¬ A > remaining_amount db o)
    (hval : o.value = itemsSum db o.id)
    (hfin : o.final_value = o.value - o.discount) :
    (∀ db1, ajax_add_payment now db oid A method note = Except.ok db1 →
      ∀ r, findOrder db1 oid = some r →
        (r.is_paid = true → remaining_amount db1 r ≤ 0 ∧ r.final_value > 0) ∧
        (r.final_value = 0 → r.is_paid = false)) ∧
    (∀ pay db2, db.payments.find? (fun p => p.id == payId && p.orderId == oid) = some pay →
      ajax_delete_payment now db oid payId = Except.ok db2 →
      ∀ r, findOrder db2 oid = some r →
        (r.is_paid = true → remaining_amount db2 r ≤ 0 ∧ r.final_value > 0) ∧
        (r.final_value = 0 → r.is_paid = false)) := by
  have hoid : o.id = oid := by
    have := List.find?_some ho
    simpa using this
  subst hoid
  constructor
  · intro db1 h1 r hr
    rw [ajax_add_payment_effect now db o.id A method note o ho ht h0 hA hval hfin] at h1
    have hdb1 : afterAddPayment db o A method note = db1 := Except.ok.inj h1
    subst hdb1
    rw [findOrder_afterAddPayment db o A method note ho] at hr
    have hrEq : { o with is_paid := addPaymentFlag db o A method note } = r :=
      Option.some.inj hr
    subst hrEq
    have hflag : addPaymentFlag db o A method note
        = is_fully_paid ({ db with payments := db.payments ++ [addPaymentRow db o A method note] }) o := rfl
    by_cases hfv : o.final_value ≤ 0
    · constructor
      · intro hpaid
        rw [hflag] at hpaid
        unfold is_fully_paid at hpaid
        rw [if_pos hfv] at hpaid
        cases hpaid
      · intro _
        show addPaymentFlag db o A method note = false
        rw [hflag]
        unfold is_fully_paid
        rw [if_pos hfv]
    · constructor
      · intro hpaid
        rw [hflag] at hpaid
        unfold is_fully_paid at hpaid
        rw [if_neg hfv] at hpaid
        have hle := of_decide_eq_true hpaid
        refine ⟨hle, show o.final_value > 0 by omega⟩
      · intro hfv0
        exfalso
        have hfv0' : o.final_value = 0 := hfv0
        exact hfv (by omega)
  · intro pay db2 hfindpay h2 r hr
    rw [ajax_delete_payment_effect now db o.id payId o pay ho hfindpay ht hval hfin] at h2
    have hdb2 : afterDeletePayment db o payId = db2 := Except.ok.inj h2
    subst hdb2
    rw [findOrder_afterDeletePayment db o payId ho] at hr
    have hrEq : { o with is_paid := delPaymentFlag db o payId } = r := Option.some.inj hr
    subst hrEq
    have hflag : delPaymentFlag db o payId
        = is_fully_paid ({ db with payments := db.payments.filter (fun p => p.id != payId) }) o := rfl
    by_cases hfv : o.final_value ≤ 0
    · constructor
      · intro hpaid
        rw [hflag] at hpaid
        unfold is_fully_paid at hpaid
        rw [if_pos hfv] at hpaid
        cases hpaid
      · intro _
        show delPaymentFlag db o payId = false
        rw [hflag]
        unfold is_fully_paid
        rw [if_pos hfv]
    · constructor
      · intro hpaid
        rw [hflag] at hpaid
        unfold is_fully_paid at hpaid
        rw [if_neg hfv] at hpaid
        have hle := of_decide_eq_true hpaid
        refine ⟨hle, show o.final_value > 0 by omega⟩
      · intro hfv0
        exfalso
        have hfv0' : o.final_value = 0 := hfv0
        exact hfv (by omega)

/-- Fixture product for the C4 scenario: list price 100, ample stock. -/
def prodC4 : Product :=
  { id := 1, title := "sac", value := 100, discount_value := 0,
    final_value := 100, qty := 10, prix_achat := 50 }

/-- Fixture order for the C4 scenario: one item of 100 already billed. -/
def ordC4 : OrderRow :=
  { id := 1, date := "20240101", title := "T4", value := 100,
    discount := 0, final_value := 100, is_paid := false }

/-- Fixture database for the C4 counterexample. -/
def dbC4 : DB :=
  { products := [prodC4]
    orders := [ordC4]
    orderItems := [{ id := 1, orderId := 1, productId := 1, qty := 1,
                     price := 100, discount_price := 0, final_price := 100,
                     total_price := 100 }]
    payments := [], mouvements := [], typeDepenses := [], depenses := [] }

/-- The C4 scenario: fully pay the order (100), then add one more unit
of the product to the same order. -/
def runC4 : Except String DB :=
  match ajax_add_payment nowW dbC4 1 100 "cash" "" with
  | Except.ok db1 => ajax_add_product nowW db1 1 1
  | Except.error e => Except.error e

/-- Persisted `is_paid` of the order after the C4 scenario. -/
def runC4_is_paid : Option Bool :=
  match runC4 with
  | Except.ok d => orderIsPaid d 1
  | Except.error _ => none

/-- Persisted remaining amount of the order after the C4 scenario. -/
def runC4_remaining : Option Int :=
  match runC4 with
  | Except.ok d => orderRemaining d 1
  | Except.error _ => none

/-- Counterexample to C4 as stated: after paying an order in full and
then adding another item, the persisted order still has
`is_paid = true` while its remaining amount is `100 > 0` — the claimed
invariant `is_paid = true → remaining_amount() ≤ 0` does not survive
OrderItem changes made after payments. -/
theorem C4_counterexample_item_added_after_full_payment :
    runC4_is_paid = some true ∧ runC4_remaining = some 100 ∧ ¬ ((100 : Int) ≤ 0) := by
  refine ⟨?_, ?_, by omega⟩ <;> decide

/-- Fixture database for the C4 witness: the C4 order with an existing
partial payment of 30. -/
def dbC4w : DB :=
  { products := [prodC4]
    orders := [ordC4]
    orderItems := [{ id := 1, orderId := 1, productId := 1, qty := 1,
                     price := 100, discount_price := 0, final_price := 100,
                     total_price := 100 }]
    payments := [{ id := 1, orderId := 1, amount := 30, method := "cash", note := "" }]
    mouvements := [], typeDepenses := [], depenses := [] }

/-- Witness for the amended C4 at a concrete order: paying 20 more and,
separately, deleting the existing payment, both preserve the invariant. -/
theorem C4_amended_paid_invariant_after_payment_events_witness :
    (∀ db1, ajax_add_payment nowW dbC4w 1 20 "cash" "" = Except.ok db1 →
      ∀ r, findOrder db1 1 = some r →
        (r.is_paid = true → remaining_amount db1 r ≤ 0 ∧ r.final_value > 0) ∧
        (r.final_value = 0 → r.is_paid = false)) ∧
    (∀ pay db2, dbC4w.payments.find? (fun p => p.id == 1 && p.orderId == 1) = some pay →
      ajax_delete_payment nowW dbC4w 1 1 = Except.ok db2 →
      ∀ r, findOrder db2 1 = some r →
        (r.is_paid = true → remaining_amount db2 r ≤ 0 ∧ r.final_value > 0) ∧
        (r.final_value = 0 → r.is_paid = false)) :=
  C4_amended_paid_invariant_after_payment_events nowW dbC4w 1 1 20 "cash" "" ordC4
    (by decide) (by decide) (by decide) (by decide) (by decide) (by decide)

/-! ## C1: persisted order totals after item operations -/

/-- The persisted order row exists and its stored totals agree with its
items. -/
def orderConsistent (db : DB) (oid : Nat) : Prop :=
  ∃ r, findOrder db oid = some r ∧ r.value = itemsSum db oid ∧
    r.final_value = r.value - r.discount

/-- The persisted row keeps the order's primary key. -/
theorem orderPersistedRow_id (db : DB) (o : OrderRow) :
    (orderPersistedRow db o).id = o.id := by
  unfold orderPersistedRow
  split <;> rfl

/-- After `Order.save` on an order that (still) has items, the persisted
row is consistent. -/
theorem orderConsistent_writeOrder (db : DB) (o : OrderRow)
    (ho : findOrder db o.id = some o)
    (hne : itemsOf db o.id ≠ []) :
    orderConsistent (writeOrder db (orderPersistedRow db o)) o.id := by
  have hne' : (itemsOf db o.id).isEmpty = false := by
    cases h : itemsOf db o.id with
    | nil => exact absurd h hne
    | cons a t => rfl
  refine ⟨orderPersistedRow db o, ?_, ?_, ?_⟩
  · exact findOrder_writeOrder_of_found db _ o.id (orderPersistedRow_id db o) o ho
  · rw [itemsSum_writeOrder]
    simp [orderPersistedRow, hne']
  · simp [orderPersistedRow, hne']

/-- A constant keyed update puts the new row in the list as soon as a
row with the key was present. -/
theorem mem_map_writeConst {α : Type} (p : α → Bool) (b : α) (l : List α) (a : α)
    (ha : a ∈ l) (hpa : p a = true) : b ∈ l.map (fun x => if p x then b else x) := by
  refine List.mem_map.mpr ⟨a, ha, ?_⟩
  simp [hpa]

/-- C1 (amended): immediately after any OrderItem INSERT or UPDATE, and
after any OrderItem delete that leaves the order with at least one item,
the persisted Order satisfies `value = Σ total_price` and
`final_value = value - discount`.  (The claim's `value == 0` clause for
an order emptied by a delete fails on the code; see the
counterexample.) -/
theorem C1_amended_order_totals_after_item_ops
    (now : Now) (db : DB) (it : OrderItemRow) (prodObj : Product) (o : OrderRow)
    (ho : findOrder db o.id = some o)
    (ht : strBlank o.title = false)
    (hoid : it.orderId = o.id) :
    orderConsistent ((OrderItem.saveInsert now db it prodObj o).1) o.id ∧
    (∀ itold, findItem db it.id = some itold →
      orderConsistent ((OrderItem.saveUpdate now db it o).1) o.id) ∧
    (∀ prodObj2, itemsOf ((OrderItem.delete now db it prodObj2 o).1) o.id ≠ [] →
      orderConsistent ((OrderItem.delete now db it prodObj2 o).1) o.id) := by
  refine ⟨?_, ?_, ?_⟩
  · -- INSERT
    have hne : itemsOf ({ db with orderItems := db.orderItems ++ [OrderItem.recompute it] })
        o.id ≠ [] := by
      have hmem : OrderItem.recompute it ∈
          itemsOf ({ db with orderItems := db.orderItems ++ [OrderItem.recompute it] }) o.id := by
        apply List.mem_filter.mpr
        refine ⟨by simp, ?_⟩
        show ((OrderItem.recompute it).orderId == o.id) = true
        have hsame : (OrderItem.recompute it).orderId = it.orderId := rfl
        simp [hsame, hoid]
      exact List.ne_nil_of_mem hmem
    simp only [OrderItem.saveInsert, tracer_vente_produit, MouvementStock.create]
    rw [Order.save_effect now _ o ht]
    exact orderConsistent_writeOrder _ o ho hne
  · -- UPDATE
    intro itold hex
    have hmem0 : itold ∈ db.orderItems := List.mem_of_find?_eq_some hex
    have hpa : (itold.id == (OrderItem.recompute it).id) = true := by
      have := List.find?_some hex
      simpa using this
    have hmem : OrderItem.recompute it ∈ (writeItem db (OrderItem.recompute it)).orderItems := by
      show OrderItem.recompute it ∈ db.orderItems.map
        (fun x => if x.id == (OrderItem.recompute it).id then OrderItem.recompute it else x)
      exact mem_map_writeConst _ _ db.orderItems itold hmem0 hpa
    have hne : itemsOf (writeItem db (OrderItem.recompute it)) o.id ≠ [] := by
      have hmem2 : OrderItem.recompute it ∈ itemsOf (writeItem db (OrderItem.recompute it)) o.id := by
        apply List.mem_filter.mpr
        refine ⟨hmem, ?_⟩
        show ((OrderItem.recompute it).orderId == o.id) = true
        have hsame : (OrderItem.recompute it).orderId = it.orderId := rfl
        simp [hsame, hoid]
      exact List.ne_nil_of_mem hmem2
    simp only [OrderItem.saveUpdate]
    rw [Order.save_effect now _ o ht]
    exact orderConsistent_writeOrder _ o ho hne
  · -- DELETE leaving at least one item
    intro prodObj2 hne2
    simp only [OrderItem.delete, delete_order_item, annuler_mouvement_vente,
      Product.save, MouvementStock.create] at hne2 ⊢
    rw [Order.save_effect now _ o ht] at hne2 ⊢
    exact orderConsistent_writeOrder _ o ho hne2

/-- Fixture order for the C1 counterexample: one item worth 100. -/
def ordC1 : OrderRow :=
  { id := 1, date := "20240101", title := "T1", value := 100,
    discount := 0, final_value := 100, is_paid := false }

/-- Fixture database for the C1 counterexample. -/
def dbC1 : DB :=
  { products := [{ id := 1, title := "lait", value := 100, discount_value := 0,
                   final_value := 100, qty := 1, prix_achat := 70 }]
    orders := [ordC1]
    orderItems := [{ id := 1, orderId := 1, productId := 1, qty := 1,
                     price := 100, discount_price := 0, final_price := 100,
                     total_price := 100 }]
    payments := [], mouvements := [], typeDepenses := [], depenses := [] }

/-- Deleting the only item of the C1 fixture order. -/
def runC1 : Except String DB := ajax_modify_order_item nowW dbC1 1 ModifyAction.delete

/-- Item rows of the order after the C1 run. -/
def runC1_items : Option (List OrderItemRow) :=
  match runC1 with
  | Except.ok d => some (itemsOf d 1)
  | Except.error _ => none

/-- Persisted `value` of the order after the C1 run. -/
def runC1_value : Option Int :=
  match runC1 with
  | Except.ok d => orderValue d 1
  | Except.error _ => none

/-- Counterexample to C1 as stated: deleting the only OrderItem of an
order leaves the order with no items but with its previous persisted
`value` of 100, not 0 — `Order.save` computes the zero totals in memory
but only writes them back when the order still has items. -/
theorem C1_counterexample_delete_last_item :
    runC1_items = some [] ∧ runC1_value = some 100 ∧ runC1_value ≠ some 0 := by
  refine ⟨?_, ?_, ?_⟩ <;> decide

/-- Witness database for the amended C1: an order with two items. -/
def dbC1w : DB :=
  { products := [{ id := 1, title := "riz", value := 100, discount_value := 0,
                   final_value := 100, qty := 4, prix_achat := 55 }]
    orders := [{ id := 1, date := "20240101", title := "T1", value := 150,
                 discount := 0, final_value := 150, is_paid := false }]
    orderItems := [{ id := 1, orderId := 1, productId := 1, qty := 1,
                     price := 100, discount_price := 0, final_price := 100,
                     total_price := 100 },
                   { id := 2, orderId := 1, productId := 1, qty := 1,
                     price := 50, discount_price := 0, final_price := 50,
                     total_price := 50 }]
    payments := [], mouvements := [], typeDepenses := [], depenses := [] }

/-- Fixture order instance for the amended C1 witness. -/
def ordC1w : OrderRow :=
  { id := 1, date := "20240101", title := "T1", value := 150,
    discount := 0, final_value := 150, is_paid := false }

/-- Fixture item instance for the amended C1 witness. -/
def itC1w : OrderItemRow :=
  { id := 1, orderId := 1, productId := 1, qty := 1,
    price := 100, discount_price := 0, final_price := 100, total_price := 100 }

/-- Fixture product instance for the amended C1 witness. -/
def prodC1w : Product :=
  { id := 1, title := "riz", value := 100, discount_value := 0,
    final_value := 100, qty := 4, prix_achat := 55 }

/-- Witness for the amended C1 at a concrete two-item order. -/
theorem C1_amended_order_totals_after_item_ops_witness :
    orderConsistent ((OrderItem.saveInsert nowW dbC1w itC1w prodC1w ordC1w).1) ordC1w.id ∧
    (∀ itold, findItem dbC1w itC1w.id = some itold →
      orderConsistent ((OrderItem.saveUpdate nowW dbC1w itC1w ordC1w).1) ordC1w.id) ∧
    (∀ prodObj2, itemsOf ((OrderItem.delete nowW dbC1w itC1w prodObj2 ordC1w).1) ordC1w.id ≠ [] →
      orderConsistent ((OrderItem.delete nowW dbC1w itC1w prodObj2 ordC1w).1) ordC1w.id) :=
  C1_amended_order_totals_after_item_ops nowW dbC1w itC1w prodC1w ordC1w
    (by decide) (by decide) (by decide)

/-! ## C7: stock restoration on item delete -/

/-- Fixture for C7 (spec end-to-end scenario 4): product stock 1, one
order item of qty 4. -/
def dbC7 : DB :=
  { products := [{ id := 1, title := "cafe", value := 100, discount_value := 0,
                   final_value := 100, qty := 1, prix_achat := 80 }]
    orders := [{ id := 1, date := "20240101", title := "T7", value := 400,
                 discount := 0, final_value := 400, is_paid := false }]
    orderItems := [{ id := 1, orderId := 1, productId := 1, qty := 4,
                     price := 100, discount_price := 0, final_price := 100,
                     total_price := 400 }]
    payments := [], mouvements := [], typeDepenses := [], depenses := [] }

/-- Deleting the qty-4 item through the view. -/
def runC7 : Except String DB := ajax_modify_order_item nowW dbC7 1 ModifyAction.delete

/-- Persisted product quantity after the C7 run. -/
def runC7_qty : Option Nat :=
  match runC7 with
  | Except.ok d => productQty d 1
  | Except.error _ => none

/-- C7 evaluated at the failing input: deleting an OrderItem of qty 4
from a product with stock 1 leaves the persisted stock at 13, not the
claimed 1 + 4 = 5 — the view restores the quantity once and each of the
two post-delete receivers (`delete_order_item` and
`annuler_mouvement_vente`) restores it again. -/
theorem C7_code_bug_triple_restoration :
    productQty dbC7 1 = some 1 ∧ runC7_qty = some 13 ∧ runC7_qty ≠ some (1 + 4) := by
  refine ⟨?_, ?_, ?_⟩ <;> decide

/-! ## C8: SORTIE_VENTE ledger snapshots -/

/-- Fixture for C8: product stock 5, an order with no items yet. -/
def dbC8 : DB :=
  { products := [{ id := 1, title := "pain", value := 100, discount_value := 0,
                   final_value := 100, qty := 5, prix_achat := 20 }]
    orders := [{ id := 1, date := "20240101", title := "T8", value := 0,
                 discount := 0, final_value := 0, is_paid := false }]
    orderItems := [], payments := [], mouvements := [], typeDepenses := [], depenses := [] }

/-- Adding one unit of the product to the order. -/
def runC8 : Except String DB := ajax_add_product nowW dbC8 1 1

/-- Persisted product quantity after the C8 run. -/
def runC8_qty : Option Nat :=
  match runC8 with
  | Except.ok d => productQty d 1
  | Except.error _ => none

/-- The ledger rows created by the C8 run. -/
def runC8_mouv : Option (List MouvementRow) :=
  match runC8 with
  | Except.ok d => some d.mouvements
  | Except.error _ => none

/-- `stock_avant` of the first ledger row created by the C8 run. -/
def runC8_avant : Option Nat :=
  match runC8 with
  | Except.ok d => (d.mouvements.head?).map (fun m => m.stock_avant)
  | Except.error _ => none

/-- `stock_apres` of the first ledger row created by the C8 run. -/
def runC8_apres : Option Nat :=
  match runC8 with
  | Except.ok d => (d.mouvements.head?).map (fun m => m.stock_apres)
  | Except.error _ => none

/-- C8 evaluated at the failing input: creating an OrderItem on a
product with stock 5 does create exactly one SORTIE_VENTE row with
negative `quantite` referencing the order, but the row records
`stock_avant = 6` and `stock_apres = 5` while the product's quantity is
5 immediately before and 4 immediately after the creation — the signal
computes the snapshots before the view decrements the stock. -/
theorem C8_code_bug_sortie_vente_snapshots :
    productQty dbC8 1 = some 5 ∧
    runC8_qty = some 4 ∧
    runC8_mouv = some
      [{ produitId := 1, type_mouvement := TypeMouvement.SORTIE_VENTE, quantite := -1,
         stock_avant := 6, stock_apres := 5, prix_achat_unitaire := none,
         cout_total := none, reference_commande := some 1, reference_depense := none }] ∧
    runC8_avant ≠ productQty dbC8 1 ∧
    runC8_apres ≠ runC8_qty := by
  refine ⟨?_, ?_, ?_, ?_, ?_⟩ <;> decide

/-! ## C9: order numbering -/

/-- The probing loop returns either a candidate that passed the
freeness check or the fallback title, and probes at most `fuel` times. -/
theorem probeAux_spec (db : DB) (excl : Option Nat) (datePart timePart fallb : String) :
    ∀ fuel s, (probeAux db excl datePart timePart fallb fuel s).2 ≤ fuel ∧
      (titleFree db excl (probeAux db excl datePart timePart fallb fuel s).1 = true ∨
       (probeAux db excl datePart timePart fallb fuel s).1 = fallb) := by
  intro fuel
  induction fuel with
  | zero =>
    intro s
    exact ⟨Nat.le_refl 0, Or.inr rfl⟩
  | succ f ih =>
    intro s
    by_cases h : titleFree db excl (candidateTitle datePart timePart s) = true
    · simp only [probeAux]
      rw [if_pos h]
      exact ⟨Nat.succ_le_succ (Nat.zero_le f), Or.inl h⟩
    · simp only [probeAux]
      rw [if_neg h]
      obtain ⟨h1, h2⟩ := ih (s + 1)
      exact ⟨Nat.succ_le_succ h1, h2⟩

/-- C9 (amended): the order-number generator performs at most 1000
existence probes, and the title it returns is either free in the order
table (excluding the order's own row) — so two generations in rapid
succession with the insert in between cannot collide on the probing
path — or it is the microsecond fallback title, which is returned
without any uniqueness check and therefore can collide (see the
counterexample). -/
theorem C9_amended_order_numbering (db : DB) (o : OrderRow) (excl : Option Nat) (now : Now) :
    (generate_order_number db o excl now).2 ≤ 1000 ∧
    (titleFree db excl (generate_order_number db o excl now).1 = true ∨
     (generate_order_number db o excl now).1
       = fallbackTitle o.date now.timePart now.micro) := by
  simp only [generate_order_number]
  constructor
  · refine le_trans (probeAux_spec db excl o.date now.timePart _ _ _).1 ?_
    split <;> omega
  · exact (probeAux_spec db excl o.date now.timePart _ _ _).2

/-- Filtering a replicated list whose element passes keeps it whole. -/
theorem filter_replicate_pos {α : Type} (p : α → Bool) (a : α) (ha : p a = true) :
    ∀ n : Nat, (List.replicate n a).filter p = List.replicate n a := by
  intro n
  induction n with
  | zero => rfl
  | succ k ih => simp [List.replicate_succ, List.filter_cons, ha, ih]

/-- `any` over a replicated list whose element fails is false. -/
theorem any_replicate_neg {α : Type} (p : α → Bool) (a : α) (ha : p a = false) :
    ∀ n : Nat, (List.replicate n a).any p = false := by
  intro n
  induction n with
  | zero => rfl
  | succ k ih => simp [List.replicate_succ, ha, ih]

/-- One probe step with the last unit of fuel: a blocked candidate
falls back. -/
theorem probeAux_one (db : DB) (excl : Option Nat) (d t f : String) (s : Nat)
    (hfree : titleFree db excl (candidateTitle d t s) = false) :
    probeAux db excl d t f 1 s = (f, 1) := by
  show probeAux db excl d t f (0 + 1) s = (f, 1)
  simp only [probeAux]
  rw [if_neg (by rw [hfree]; simp)]

/-- A same-date order row used 999 times to drive the sequence seed of
the C9 counterexample past 999. -/
def rowC9 : OrderRow :=
  { id := 2, date := "20240101", title := "CMD-20240101-x", value := 0,
    discount := 0, final_value := 0, is_paid := false }

/-- A different-date order whose title blocks probe 1000. -/
def blockC9a : OrderRow :=
  { id := 3, date := "20000101", title := "CMD-20240101-1200-1000", value := 0,
    discount := 0, final_value := 0, is_paid := false }

/-- A different-date order whose title blocks probe 1001. -/
def blockC9b : OrderRow :=
  { id := 4, date := "20000101", title := "CMD-20240101-1200-1001", value := 0,
    discount := 0, final_value := 0, is_paid := false }

/-- First order receiving a generated number. -/
def ordC9A : OrderRow :=
  { id := 100, date := "20240101", title := "", value := 0,
    discount := 0, final_value := 0, is_paid := false }

/-- Second order receiving a generated number, right after the first. -/
def ordC9B : OrderRow :=
  { id := 101, date := "20240101", title := "", value := 0,
    discount := 0, final_value := 0, is_paid := false }

/-- The first order as persisted with its generated (fallback) title. -/
def rowC9A : OrderRow :=
  { id := 100, date := "20240101", title := "CMD-20240101-1200-123", value := 0,
    discount := 0, final_value := 0, is_paid := false }

/-- Order table at the first generation: 999 same-date rows seed the
sequence to 1000, and a blocker occupies the probed title. -/
def dbC9 : DB :=
  { products := [], orders := List.replicate 999 rowC9 ++ [blockC9a, blockC9b]
    orderItems := [], payments := [], mouvements := [], typeDepenses := [], depenses := [] }

/-- Order table at the second generation: the first order has been
inserted with its generated title. -/
def dbC9b : DB :=
  { products := [], orders := List.replicate 999 rowC9 ++ [blockC9a, blockC9b, rowC9A]
    orderItems := [], payments := [], mouvements := [], typeDepenses := [], depenses := [] }

/-- Counterexample to C9 as stated: with the same business date and the
same wall-clock time, both generations overflow the 999-sequence bound,
both take the microsecond fallback, and the second returns exactly the
title the first order was saved under — a duplicate. -/
theorem C9_counterexample_fallback_duplicate_titles :
    (generate_order_number dbC9 ordC9A (some 100) nowW).1 = "CMD-20240101-1200-123" ∧
    (generate_order_number dbC9b ordC9B (some 101) nowW).1 = "CMD-20240101-1200-123" ∧
    dbC9b.orders.any (fun r => r.title == "CMD-20240101-1200-123" && r.id != 101) = true := by
  refine ⟨?_, ?_, ?_⟩
  · simp only [generate_order_number]
    have hseed : (dbC9.orders.filter (fun r =>
        r.date == ordC9A.date &&
          isPrefixList ("CMD-" ++ ordC9A.date ++ "-").data r.title.data)).length = 999 := by
      show ((List.replicate 999 rowC9 ++ [blockC9a, blockC9b]).filter _).length = 999
      rw [List.filter_append, filter_replicate_pos _ rowC9 (by decide)]
      rw [show ([blockC9a, blockC9b].filter (fun r =>
        r.date == ordC9A.date &&
          isPrefixList ("CMD-" ++ ordC9A.date ++ "-").data r.title.data)) = [] from by decide]
      rw [List.append_nil, List.length_replicate]
    rw [hseed]
    have hfree : titleFree dbC9 (some 100)
        (candidateTitle ordC9A.date nowW.timePart (999 + 1)) = false := by
      unfold titleFree
      rw [show dbC9.orders = List.replicate 999 rowC9 ++ [blockC9a, blockC9b] from rfl]
      rw [List.any_append, any_replicate_neg _ rowC9 (by decide)]
      decide
    rw [if_pos (by omega : 1000 ≤ 999 + 1)]
    rw [probeAux_one dbC9 (some 100) ordC9A.date nowW.timePart _ (999 + 1) hfree]
    decide
  · simp only [generate_order_number]
    have hseed : (dbC9b.orders.filter (fun r =>
        r.date == ordC9B.date &&
          isPrefixList ("CMD-" ++ ordC9B.date ++ "-").data r.title.data)).length = 1000 := by
      show ((List.replicate 999 rowC9 ++ [blockC9a, blockC9b, rowC9A]).filter _).length = 1000
      rw [List.filter_append, filter_replicate_pos _ rowC9 (by decide)]
      rw [show ([blockC9a, blockC9b, rowC9A].filter (fun r =>
        r.date == ordC9B.date &&
          isPrefixList ("CMD-" ++ ordC9B.date ++ "-").data r.title.data)) = [rowC9A] from by decide]
      rw [List.length_append, List.length_replicate]
      rfl
    rw [hseed]
    have hfree : titleFree dbC9b (some 101)
        (candidateTitle ordC9B.date nowW.timePart (1000 + 1)) = false := by
      unfold titleFree
      rw [show dbC9b.orders = List.replicate 999 rowC9 ++ [blockC9a, blockC9b, rowC9A] from rfl]
      rw [List.any_append, any_replicate_neg _ rowC9 (by decide)]
      decide
    rw [if_pos (by omega : 1000 ≤ 1000 + 1)]
    rw [probeAux_one dbC9b (some 101) ordC9B.date nowW.timePart _ (1000 + 1) hfree]
    decide
  · rw [show dbC9b.orders = List.replicate 999 rowC9 ++ [blockC9a, blockC9b, rowC9A] from rfl]
    rw [List.any_append, any_replicate_neg _ rowC9 (by decide)]
    decide
